import Mathlib

/-!
Shallow embedding of the mock-mode session engine of the
openai-realtimeapi-mock repository: the trigger read loop, the replay
engine, the scenario engine (message / function_call / user_transcription
events), the NDJSON event recorder, and scenario selection.

Go functions are translated into pure Lean functions.  Wall-clock sleeps
are recorded as data instead of performed; websocket writes are modelled
by an oracle `ok : Nat → Bool` giving the success of the n-th write on
the connection, and every emission function threads an explicit state
that records both attempted and successfully sent frames.
-/

namespace RealtimeMock

/-! ## Data model (config.go, shared types) -/

/-- config.go `FunctionCallDefinition`. -/
structure FunctionCallDefinition where
  name : String
  arguments : String
deriving Repr, DecidableEq

/-- config.go `Event`: a scripted scenario event. `type` is one of
"message", "function_call", "user_transcription" (validated at load). -/
structure Event where
  type : String
  delayMs : Int
  text : String
  functionCall : Option FunctionCallDefinition
deriving Repr, DecidableEq

/-- config.go `Scenario`. -/
structure Scenario where
  name : String
  events : List Event
deriving Repr, DecidableEq

/-- `RecordedEvent`: one NDJSON line; `data` is the raw JSON payload. -/
structure RecordedEvent where
  timestamp : Int
  data : String
deriving Repr, DecidableEq

/-! ## Trigger read loop (handleMockWebSocket, replay_test.go lines 267-331)

An inbound websocket message is either a text frame or a binary frame.
`json.Unmarshal` of a text frame into `BaseEvent` is modelled by a
parameter `parseType : String → Option String` returning the `type`
field on success and `none` on a parse error. -/

/-- An inbound websocket message. -/
inductive InMsg where
  | text (s : String)
  | binary (b : String)
deriving Repr, DecidableEq

/-- Whether an inbound message qualifies as a trigger: any binary frame,
or a JSON text frame whose `type` is `input_audio_buffer.append` or
`response.create` (handleMockWebSocket lines 288, 311-315). -/
def qualifyingMsg (parseType : String → Option String) : InMsg → Bool
  | .binary _ => true
  | .text s =>
    match parseType s with
    | some t => t == "input_audio_buffer.append" || t == "response.create"
    | none => false

/-- The read loop of handleMockWebSocket, from the point of view of the
background executions it spawns.  The `Bool` argument is the
`audioReceived` flag (the `sync.Once` can only fire when the flag flips,
and the loop is the only caller, so flag and once coincide).  The result
lists, in order, the pre-response sleep in seconds of each spawned
background execution (scenario run or replay).  The JSON-text trigger
branch skips the delay for replays (`!isReplay && delay > 0`, line 295);
the binary branch applies it unconditionally (line 318). -/
def mockReadLoop (parseType : String → Option String) (isReplay : Bool)
    (responseDelaySeconds : Int) : List InMsg → Bool → List Int
  | [], _ => []
  | .text s :: rest, audioReceived =>
    match parseType s with
    | some t =>
      if t == "input_audio_buffer.append" || t == "response.create" then
        if !audioReceived then
          (if !isReplay && decide (responseDelaySeconds > 0) then
            responseDelaySeconds else 0)
            :: mockReadLoop parseType isReplay responseDelaySeconds rest true
        else
          mockReadLoop parseType isReplay responseDelaySeconds rest audioReceived
      else
        mockReadLoop parseType isReplay responseDelaySeconds rest audioReceived
    | none => mockReadLoop parseType isReplay responseDelaySeconds rest audioReceived
  | .binary _ :: rest, audioReceived =>
    if !audioReceived then
      (if decide (responseDelaySeconds > 0) then responseDelaySeconds else 0)
        :: mockReadLoop parseType isReplay responseDelaySeconds rest true
    else
      mockReadLoop parseType isReplay responseDelaySeconds rest audioReceived

/-! ## Replay engine (runReplay, replay_test.go lines 336-391)

A log file is a list of lines; a line either parses as a `RecordedEvent`
(`some e`) or fails to parse (`none`; the zero-length lines the loop
skips before parsing also fall here, since they are not valid JSON).
The result is the list of `(sleepMilliseconds, payload)` pairs actually
sent, in order; `ok n` tells whether the n-th write succeeds. -/

/-- The scanner loop of `runReplay`, threading `lastTimestamp` and
`firstEvent`.  A parse failure skips the line; a write failure returns
immediately. -/
def runReplayGo (ok : Nat → Bool) (ctr : Nat) (lastTimestamp : Int)
    (firstEvent : Bool) : List (Option RecordedEvent) → List (Int × String)
  | [] => []
  | none :: rest => runReplayGo ok ctr lastTimestamp firstEvent rest
  | some e :: rest =>
    let last := if firstEvent then e.timestamp else lastTimestamp
    let delay := e.timestamp - last
    let sleepMs := if delay > 0 then delay else 0
    if ok ctr then
      (sleepMs, e.data) :: runReplayGo ok (ctr + 1) e.timestamp false rest
    else []

/-- `runReplay`: Go initializes `lastTimestamp` to 0 and `firstEvent` to
true. -/
def runReplay (ok : Nat → Bool) (lines : List (Option RecordedEvent)) :
    List (Int × String) :=
  runReplayGo ok 0 0 true lines

/-- Modelled from the spec: after the first record the engine sleeps
`max(0, event.timestamp - previous.timestamp)` milliseconds before each
payload. -/
def replayScheduleGo (prev : Int) : List RecordedEvent → List (Int × String)
  | [] => []
  | e :: rest => (max 0 (e.timestamp - prev), e.data) :: replayScheduleGo e.timestamp rest

/-- Modelled from the spec: the delay is zero for the first record. -/
def replaySchedule : List RecordedEvent → List (Int × String)
  | [] => []
  | e :: rest => (0, e.data) :: replayScheduleGo e.timestamp rest

/-! ## Event recorder (Recorder.RecordMessage, proxy.go lines 358-386)

The recorder's state is its file: `none` after `Close` (or a failed
open), otherwise the list of records written so far.  `json.Valid` is
modelled by a validity predicate parameter. -/

/-- The recorder's mutable state. -/
structure RecorderState where
  file : Option (List String)
deriving Repr, DecidableEq

/-- One lower-case hex digit, as in Go encoding/json's `hex` table. -/
def hexDigit (n : Nat) : Char :=
  if n < 10 then Char.ofNat (48 + n) else Char.ofNat (87 + n)

/-- The `\u00XX` escape Go's `compact` emits for `<`, `>`, `&`. -/
def escapeAngleAmp (c : Char) : List Char :=
  ['\\', 'u', '0', '0', hexDigit (c.toNat / 16), hexDigit (c.toNat % 16)]

/-- How Go's `compact` with HTML escaping copies one character that the
whitespace-skipping rule keeps: `<`, `>`, `&` become `\u00XX`,
the line separators U+2028/U+2029 become their six-character
escapes, and everything else is unchanged. -/
def emitEscaped (c : Char) : List Char :=
  if c = '<' ∨ c = '>' ∨ c = '&' then escapeAngleAmp c
  else if c = Char.ofNat 0x2028 then ['\\', 'u', '2', '0', '2', '8']
  else if c = Char.ofNat 0x2029 then ['\\', 'u', '2', '0', '2', '9']
  else [c]

/-- Go encoding/json `compact` with HTML escaping — the pass
`json.Marshal` applies to a `json.RawMessage` — on well-formed JSON
input: whitespace between tokens (space, tab, newline, carriage return
outside string literals) is dropped, string literals are tracked via
`inString` with the backslash flag `escNext`, and each kept character
goes through `emitEscaped`. -/
def compactEscapeGo (inString escNext : Bool) : List Char → List Char
  | [] => []
  | c :: rest =>
    if inString then
      if escNext then emitEscaped c ++ compactEscapeGo true false rest
      else if c = '\\' then c :: compactEscapeGo true true rest
      else if c = '"' then c :: compactEscapeGo false false rest
      else emitEscaped c ++ compactEscapeGo true false rest
    else
      if c = ' ' ∨ c = '\t' ∨ c = '\n' ∨ c = '\r' then
        compactEscapeGo false false rest
      else if c = '"' then c :: compactEscapeGo true false rest
      else emitEscaped c ++ compactEscapeGo false false rest

/-- The serialized form of a raw payload inside a marshalled record. -/
def compactEscape (msg : String) : String :=
  ⟨compactEscapeGo false false msg.data⟩

/-- Characters that every branch of the compaction pass copies
unchanged: not whitespace and not `<`, `>`, `&`, U+2028, U+2029. -/
def jsonPlainChar (c : Char) : Bool :=
  !(c == ' ' || c == '\t' || c == '\n' || c == '\r' || c == '<'
    || c == '>' || c == '&' || c == Char.ofNat 0x2028
    || c == Char.ofNat 0x2029)

/-- Body of `json.Marshal(RecordedEvent{Timestamp: now, Data:
json.RawMessage(msg)})`: the `RawMessage` payload goes through Go's
compact-with-HTML-escape pass, so it is stored byte-for-byte only when
it is already compact and free of the escaped characters. -/
def marshalRecordBody (now : Int) (msg : String) : String :=
  "\x7b\"timestamp\":" ++ toString now ++ ",\"data\":"
    ++ compactEscape msg ++ "\x7d"

/-- The full line written by `RecordMessage`: marshalled record plus the
appended newline (`line = append(line, '\n')`). -/
def marshalRecord (now : Int) (msg : String) : String :=
  marshalRecordBody now msg ++ "\n"

/-- `Recorder.RecordMessage`: nil file → no-op; invalid JSON → silent
no-op; otherwise exactly one line is appended. -/
def RecordMessage (jsonValid : String → Bool) (now : Int) (msg : String) :
    RecorderState → RecorderState
  | ⟨none⟩ => ⟨none⟩
  | ⟨some lines⟩ =>
    if jsonValid msg then ⟨some (lines ++ [marshalRecord now msg])⟩
    else ⟨some lines⟩

/-! ## Scenario / replay selection (handleMockWebSocket, lines 146-210)

File existence (`os.Stat`) is modelled by a predicate `statOk`;
`filepath.Join` by string concatenation with "/". -/

/-- The outcome of the selection phase of handleMockWebSocket. -/
inductive SessionSelection where
  | replay (path : String)
  | scenario (s : Scenario)
  | nothing
deriving Repr, DecidableEq

/-- The recording directory defaults to "recordings" when unset. -/
def effectiveRecordingDir (recordingPath : String) : String :=
  if recordingPath == "" then "recordings" else recordingPath

/-- Replay resolution: try the exact name, then the name with the
`.ndjson` extension, in the recording directory. -/
def resolveReplayPath (statOk : String → Bool)
    (recordingPath replaySessionName : String) : Option String :=
  if replaySessionName == "" then none
  else
    let dir := effectiveRecordingDir recordingPath
    let p1 := dir ++ "/" ++ replaySessionName
    let p2 := dir ++ "/" ++ (replaySessionName ++ ".ndjson")
    if statOk p1 then some p1
    else if statOk p2 then some p2
    else none

/-- Selection: a resolved replay wins; otherwise a requested scenario
name is looked up (first match); otherwise the first configured
scenario, if any. -/
def selectSession (statOk : String → Bool) (scenarios : List Scenario)
    (recordingPath scenarioName replaySessionName : String) :
    SessionSelection :=
  match resolveReplayPath statOk recordingPath replaySessionName with
  | some p => .replay p
  | none =>
    match (if scenarioName == "" then none
           else scenarios.find? (fun s => s.name == scenarioName)) with
    | some s => .scenario s
    | none =>
      match scenarios with
      | [] => .nothing
      | s0 :: _ => .scenario s0

/-! ## Scenario engine (runScenario and helpers, lines 395-877)

An outbound frame is reduced to its event type and the one payload field
the claims are about (the `delta` / `transcript` / `arguments` field; ""
when the claim does not mention the event's other fields).  Writes on
the shared connection are numbered by a counter; `ok n` is the success
of the n-th write.  Per-event `delay_ms` sleeps and the pacing tickers
perform no observable work and are elided. -/

/-- An outbound event frame. -/
structure Frame where
  etype : String
  payload : String
deriving Repr, DecidableEq

/-- Connection-side emission state: write counter, frames attempted, and
frames successfully written. -/
structure EmitState where
  ctr : Nat
  attempts : List Frame
  sent : List Frame
deriving Repr, DecidableEq

def EmitState.empty : EmitState := ⟨0, [], []⟩

/-- `sendJSONEvent`: one write attempt on the connection; returns the
new state and whether the write succeeded. -/
def sendEvent (ok : Nat → Bool) (f : Frame) (s : EmitState) :
    EmitState × Bool :=
  let success := ok s.ctr
  (⟨s.ctr + 1, s.attempts ++ [f],
    if success then s.sent ++ [f] else s.sent⟩, success)

/-- The common shape of the three streaming loops (transcript words,
audio chunks, argument chunks): send one frame per element, returning
early on a write failure; the `Bool` result tells whether the loop ran
to completion. -/
def sendLoop {α : Type} (ok : Nat → Bool) (mk : α → Frame) :
    List α → EmitState → EmitState × Bool
  | [], s => (s, true)
  | x :: xs, s =>
    let r := sendEvent ok (mk x) s
    if r.2 then sendLoop ok mk xs r.1 else (r.1, false)

/-- `strings.Fields`: the whitespace-separated words of a string. -/
def stringFields (text : String) : List String :=
  (text.split Char.isWhitespace).filter (fun w => w ≠ "")

/-- `streamTranscript` (lines 833-877): nothing at all when the text has
no words; otherwise one `response.audio_transcript.delta` per word with
payload `word ++ " "`, aborting on a write failure, then a
`response.output_audio_transcript.done` carrying the full text (its own
write error is ignored). -/
def streamTranscript (ok : Nat → Bool) (text : String) (s : EmitState) :
    EmitState :=
  let words := stringFields text
  if words.isEmpty then s
  else
    let r := sendLoop ok
      (fun w => ⟨"response.audio_transcript.delta", w ++ " "⟩) words s
    if r.2 then
      (sendEvent ok ⟨"response.output_audio_transcript.done", text⟩ r.1).1
    else r.1

/-- `streamAudio` (lines 771-831): `audioData` is the chunked (already
base64-encoded) audio file content after the 44-byte header skip;
`none` models a failed open / header read (error logged, nothing sent).
One `response.audio.delta` per chunk, aborting on a write failure, then
a `response.output_audio.done` whose write error is ignored. -/
def streamAudio (ok : Nat → Bool) (audioData : Option (List String))
    (s : EmitState) : EmitState :=
  match audioData with
  | none => s
  | some chunks =>
    let r := sendLoop ok (fun c => ⟨"response.audio.delta", c⟩) chunks s
    if r.2 then (sendEvent ok ⟨"response.output_audio.done", ""⟩ r.1).1
    else r.1

/-- The mock configuration fields the scenario engine reads. -/
structure MockCfg where
  audioWavPath : String
  audioData : Option (List String)
deriving Repr, DecidableEq

/-- `streamMessageResponse` (lines 421-590): the response lifecycle
around the two sub-streams.  Each lifecycle write aborts the rest of
the function on failure, except the final `response.done`, whose error
is ignored.  The source runs the two sub-streams concurrently behind
the connection's write mutex and joins them before `content_part.done`;
the model serializes audio before transcript (the claims proved below
are insensitive to the interleaving). -/
def streamMessageResponse (ok : Nat → Bool) (cfg : MockCfg)
    (text : String) (s : EmitState) : EmitState :=
  let r1 := sendEvent ok ⟨"response.created", ""⟩ s
  if !r1.2 then r1.1 else
  let r2 := sendEvent ok ⟨"response.output_item.added", ""⟩ r1.1
  if !r2.2 then r2.1 else
  let r3 := sendEvent ok ⟨"conversation.item.created", ""⟩ r2.1
  if !r3.2 then r3.1 else
  let r4 := sendEvent ok ⟨"response.content_part.added", ""⟩ r3.1
  if !r4.2 then r4.1 else
  let s5 := if cfg.audioWavPath ≠ "" then streamAudio ok cfg.audioData r4.1
            else r4.1
  let s6 := if text ≠ "" then streamTranscript ok text s5 else s5
  let r7 := sendEvent ok ⟨"response.content_part.done", text⟩ s6
  if !r7.2 then r7.1 else
  let r8 := sendEvent ok ⟨"response.output_item.done", text⟩ r7.1
  if !r8.2 then r8.1 else
  (sendEvent ok ⟨"response.done", text⟩ r8.1).1

/-- The argument chunking of `sendFunctionCall` (lines 656-679):
successive slices of at most 10 bytes. -/
def chunkBytesGo (l : List Char) : List (List Char) :=
  if h : l = [] then []
  else l.take 10 :: chunkBytesGo (l.drop 10)
termination_by l.length
decreasing_by
  have hl : 0 < l.length := List.length_pos.mpr h
  simp only [List.length_drop]
  omega

/-- The chunks of the configured arguments string. -/
def chunkArguments (args : String) : List String :=
  (chunkBytesGo args.data).map String.mk

/-- `sendFunctionCall` (lines 592-717): nothing when the definition is
missing; otherwise the function-call lifecycle with streamed argument
chunks.  Every write but the final `response.done` aborts the rest on
failure. -/
def sendFunctionCall (ok : Nat → Bool)
    (functionCall : Option FunctionCallDefinition) (s : EmitState) :
    EmitState :=
  match functionCall with
  | none => s
  | some fc =>
    let r1 := sendEvent ok ⟨"response.created", ""⟩ s
    if !r1.2 then r1.1 else
    let r2 := sendEvent ok ⟨"conversation.item.created", ""⟩ r1.1
    if !r2.2 then r2.1 else
    let r3 := sendEvent ok ⟨"response.output_item.added", ""⟩ r2.1
    if !r3.2 then r3.1 else
    let r4 := sendLoop ok
      (fun c => ⟨"response.function_call_arguments.delta", c⟩)
      (chunkArguments fc.arguments) r3.1
    if !r4.2 then r4.1 else
    let r5 := sendEvent ok
      ⟨"response.function_call_arguments.done", fc.arguments⟩ r4.1
    if !r5.2 then r5.1 else
    (sendEvent ok ⟨"response.done", fc.arguments⟩ r5.1).1

/-- `sendUserTranscription` (lines 719-769). -/
def sendUserTranscription (ok : Nat → Bool) (text : String)
    (s : EmitState) : EmitState :=
  let r1 := sendEvent ok ⟨"input_audio_buffer.committed", ""⟩ s
  if !r1.2 then r1.1 else
  let r2 := sendEvent ok ⟨"conversation.item.created", ""⟩ r1.1
  if !r2.2 then r2.1 else
  (sendEvent ok
    ⟨"conversation.item.input_audio_transcription.completed", text⟩ r2.1).1

/-- The event dispatch of `runScenario` (lines 407-416); an unknown type
only logs. -/
def runEvent (ok : Nat → Bool) (cfg : MockCfg) (e : Event)
    (s : EmitState) : EmitState :=
  if e.type == "message" then streamMessageResponse ok cfg e.text s
  else if e.type == "function_call" then sendFunctionCall ok e.functionCall s
  else if e.type == "user_transcription" then sendUserTranscription ok e.text s
  else s

/-- `runScenario` (lines 395-419): the events in order; the loop has no
error channel, so it continues to the next event whatever happened in
the previous one. -/
def runScenario (ok : Nat → Bool) (cfg : MockCfg) (scenario : Scenario)
    (s : EmitState) : EmitState :=
  scenario.events.foldl (fun st e => runEvent ok cfg e st) s

/-- Concatenation, in emission order, of the payloads of the
successfully sent frames of a given event type. -/
def sentPayloadConcat (etype : String) (s : EmitState) : String :=
  String.join ((s.sent.filter (fun f => f.etype == etype)).map Frame.payload)

/-- The write oracle of a connection that dies at the k-th write: the
first k writes succeed and every later one fails (once a websocket
write has failed the connection is closed, so no later write can
succeed). -/
def failK (k : Nat) : Nat → Bool := fun n => decide (n < k)

/-- Simulation invariant (live phase) between a run against `failK k`
and the same run against a failure-free connection, both started from
`EmitState.empty`: no write index has reached k yet, so the two runs
agree, and the failure-free run has sent one frame per write. -/
def SimLive (k : Nat) (sf so : EmitState) : Prop :=
  sf = so ∧ so.sent.length = so.ctr ∧ so.ctr ≤ k

/-- Simulation invariant (dead phase): the k-th write has been reached,
the dying run sends nothing any more, and what it has sent is exactly
the first k frames of the failure-free run. -/
def SimDead (k : Nat) (sf so : EmitState) : Prop :=
  k ≤ sf.ctr ∧ k ≤ so.ctr ∧ so.sent.length = so.ctr
    ∧ sf.sent = so.sent.take k

/-- Either phase of the simulation. -/
def SimRel (k : Nat) (sf so : EmitState) : Prop :=
  SimLive k sf so ∨ SimDead k sf so

/-! ## Theorems -/

/-- Once the latch is set, the loop never spawns another execution. -/
theorem mockReadLoop_latched (parseType : String → Option String)
    (isReplay : Bool) (d : Int) (msgs : List InMsg) :
    mockReadLoop parseType isReplay d msgs true = [] := by
  induction msgs with
  | nil => rfl
  | cons m rest ih =>
    cases m with
    | text s =>
      cases hp : parseType s with
      | none => simpa [mockReadLoop, hp] using ih
      | some t =>
        by_cases h : (t == "input_audio_buffer.append" || t == "response.create") = true
        · simpa [mockReadLoop, hp, h] using ih
        · simpa [mockReadLoop, hp, h] using ih
    | binary b => simpa [mockReadLoop] using ih

/-- C1: for every mock-mode session, regardless of how many qualifying
inbound messages arrive (binary frames, or JSON text frames whose type is
`input_audio_buffer.append` or `response.create`), exactly one background
execution is started when at least one qualifying message arrives, and
none otherwise; subsequent qualifying messages never start a second one. -/
theorem trigger_starts_exactly_once (parseType : String → Option String)
    (isReplay : Bool) (d : Int) (msgs : List InMsg) :
    (mockReadLoop parseType isReplay d msgs false).length
      = (if msgs.any (qualifyingMsg parseType) then 1 else 0) := by
  induction msgs with
  | nil => rfl
  | cons m rest ih =>
    cases m with
    | text s =>
      cases hp : parseType s with
      | none => simpa [mockReadLoop, qualifyingMsg, hp] using ih
      | some t =>
        by_cases h : (t == "input_audio_buffer.append" || t == "response.create") = true
        · simp [mockReadLoop, qualifyingMsg, hp, h, mockReadLoop_latched]
        · simpa [mockReadLoop, qualifyingMsg, hp, h] using ih
    | binary b =>
      simp [mockReadLoop, mockReadLoop_latched, qualifyingMsg]

/-- C10: in mock mode with a resolved replay target (`isReplay = true`)
and a positive configured `responseDelaySeconds`, the pre-response delay
is skipped (sleep 0) when the trigger is a qualifying JSON text frame,
but is still applied before the replay starts when the trigger is a
binary frame. -/
theorem replay_delay_text_vs_binary (parseType : String → Option String)
    (d : Int) (hd : 0 < d) (s b : String)
    (ht : parseType s = some "input_audio_buffer.append"
        ∨ parseType s = some "response.create")
    (restT restB : List InMsg) :
    mockReadLoop parseType true d (.text s :: restT) false = [0]
      ∧ mockReadLoop parseType true d (.binary b :: restB) false = [d] := by
  constructor
  · rcases ht with h | h <;>
      simp [mockReadLoop, h, mockReadLoop_latched]
  · simp [mockReadLoop, hd, mockReadLoop_latched]

/-- Witness for C10 at a concrete parser, delay 2 and singleton message
lists. -/
theorem replay_delay_text_vs_binary_witness :
    mockReadLoop (fun _ => some "response.create") true 2
        [.text "x"] false = [0]
      ∧ mockReadLoop (fun _ => some "response.create") true 2
        [.binary "y"] false = [2] :=
  replay_delay_text_vs_binary (fun _ => some "response.create") 2
    (by decide) "x" "y" (Or.inr rfl) [] []

theorem max_sub_if (t last : Int) :
    (if last < t then t - last else 0) = max 0 (t - last) := by
  rcases le_or_lt t last with h | h
  · rw [if_neg (not_lt.mpr h), max_eq_left (by omega)]
  · rw [if_pos h, max_eq_right (by omega)]

theorem runReplayGo_allOk (es : List RecordedEvent) :
    ∀ ctr last, runReplayGo (fun _ => true) ctr last false (es.map some)
      = replayScheduleGo last es := by
  induction es with
  | nil => intro ctr last; rfl
  | cons e rest ih =>
    intro ctr last
    simp [runReplayGo, replayScheduleGo, ih, max_sub_if]

/-- C2: replaying a log whose lines all parse emits the payloads as text
frames in file order, byte-for-byte; the sleep before the first record
is zero and before each later record it is
`max(0, event.timestamp - previous.timestamp)` milliseconds.  In
particular a 3-line log with timestamps `[T, T+50, T+120]` sleeps
0 ms, 50 ms, 70 ms. -/
theorem replay_schedule_correct :
    (∀ es : List RecordedEvent,
      runReplay (fun _ => true) (es.map some) = replaySchedule es)
    ∧ (∀ (T : Int) (d1 d2 d3 : String),
      runReplay (fun _ => true)
          [some ⟨T, d1⟩, some ⟨T + 50, d2⟩, some ⟨T + 120, d3⟩]
        = [(0, d1), (50, d2), (70, d3)]) := by
  have main : ∀ es : List RecordedEvent,
      runReplay (fun _ => true) (es.map some) = replaySchedule es := by
    intro es
    cases es with
    | nil => rfl
    | cons e rest =>
      simp [runReplay, runReplayGo, replaySchedule, runReplayGo_allOk]
  refine ⟨main, fun T d1 d2 d3 => ?_⟩
  have h := main [⟨T, d1⟩, ⟨T + 50, d2⟩, ⟨T + 120, d3⟩]
  simp only [List.map] at h
  rw [h]
  simp [replaySchedule, replayScheduleGo]

/-- Dropping unparseable lines does not change what a replay sends. -/
theorem runReplayGo_skip_bad (lines : List (Option RecordedEvent)) :
    ∀ ok ctr last first,
      runReplayGo ok ctr last first lines
        = runReplayGo ok ctr last first (lines.reduceOption.map some) := by
  induction lines with
  | nil => intro ok ctr last first; rfl
  | cons l rest ih =>
    intro ok ctr last first
    cases l with
    | none => simpa [runReplayGo, List.reduceOption] using ih ok ctr last first
    | some e =>
      by_cases h : ok ctr = true
      · simp [runReplayGo, List.reduceOption, h, ih]
      · simp [runReplayGo, List.reduceOption, h]

/-- After the first failed write nothing further is sent. -/
theorem runReplayGo_take (k : Nat) (lines : List (Option RecordedEvent)) :
    ∀ ctr last first,
      runReplayGo (fun n => decide (n < k)) ctr last first lines
        = (runReplayGo (fun _ => true) ctr last first lines).take (k - ctr) := by
  induction lines with
  | nil => intro ctr last first; simp [runReplayGo]
  | cons l rest ih =>
    intro ctr last first
    cases l with
    | none => simpa [runReplayGo] using ih ctr last first
    | some e =>
      by_cases h : ctr < k
      · have hk : k - ctr = (k - (ctr + 1)) + 1 := by omega
        simp [runReplayGo, h, hk, List.take_succ_cons, ih]
      · have hk : k - ctr = 0 := by omega
        simp [runReplayGo, h, hk]

/-- C7: a line that fails to parse as a `RecordedEvent` is skipped and
replay continues with the remaining lines; a write failure terminates
the replay immediately, with exactly the payloads written before the
failure sent and nothing after. -/
theorem replay_error_handling :
    (∀ (ok : Nat → Bool) (lines : List (Option RecordedEvent)),
      runReplay ok lines = runReplay ok (lines.reduceOption.map some))
    ∧ (∀ (k : Nat) (lines : List (Option RecordedEvent)),
      runReplay (fun n => decide (n < k)) lines
        = (runReplay (fun _ => true) lines).take k) :=
  ⟨fun ok lines => runReplayGo_skip_bad lines ok 0 0 true,
   fun k lines => by
    simpa using runReplayGo_take k lines 0 0 true⟩

theorem string_data_append (a b : String) : (a ++ b).data = a.data ++ b.data := by
  cases a; cases b; rfl

theorem string_ext {a b : String} (h : a.data = b.data) : a = b := by
  cases a; cases b; exact congrArg String.mk h

/-- Every branch of the compaction pass copies a plain character
unchanged, so a payload of plain characters passes through verbatim. -/
theorem compactEscapeGo_plain (l : List Char)
    (h : ∀ c ∈ l, jsonPlainChar c = true) :
    ∀ inString escNext : Bool, compactEscapeGo inString escNext l = l := by
  induction l with
  | nil => intro _ _; rfl
  | cons c rest ih =>
    intro inString escNext
    have hc : jsonPlainChar c = true := h c (List.mem_cons_self c rest)
    have hrest := ih (fun x hx => h x (List.mem_cons_of_mem c hx))
    simp only [jsonPlainChar, Bool.not_eq_true', Bool.or_eq_false_iff,
      beq_eq_false_iff_ne, ne_eq] at hc
    obtain ⟨⟨⟨⟨⟨⟨⟨⟨h1, h2⟩, h3⟩, h4⟩, h5⟩, h6⟩, h7⟩, h8⟩, h9⟩ := hc
    have hemit : emitEscaped c = [c] := by
      rw [emitEscaped, if_neg (by tauto), if_neg h8, if_neg h9]
    cases inString with
    | true =>
      cases escNext with
      | true => simp [compactEscapeGo, hemit, hrest]
      | false =>
        by_cases hbs : c = '\\'
        · simp [compactEscapeGo, hbs, hrest]
        · by_cases hq : c = '"'
          · simp [compactEscapeGo, hbs, hq, hrest]
          · simp [compactEscapeGo, hbs, hq, hemit, hrest]
    | false =>
      have hws : ¬(c = ' ' ∨ c = '\t' ∨ c = '\n' ∨ c = '\r') := by tauto
      by_cases hq : c = '"'
      · simp [compactEscapeGo, hws, hq, hrest]
      · simp [compactEscapeGo, hws, hq, hemit, hrest]

/-- String-level corollary of `compactEscapeGo_plain`. -/
theorem compactEscape_plain (msg : String)
    (h : ∀ c ∈ msg.data, jsonPlainChar c = true) :
    compactEscape msg = msg := by
  apply string_ext
  show compactEscapeGo false false msg.data = msg.data
  exact compactEscapeGo_plain msg.data h false false

/-- C6 counterexample: the appended record does not contain the payload
byte-for-byte.  For the valid JSON payload with one insignificant space
the call appends one record, but the marshalled line compacts the space
away, so the original bytes appear nowhere in it. -/
theorem recorder_verbatim_counterexample :
    RecordMessage (fun _ => true) 5 "\x7b\"a\": 1\x7d" ⟨some []⟩
        = ⟨some [marshalRecord 5 "\x7b\"a\": 1\x7d"]⟩
      ∧ ¬ ∃ pre post, marshalRecord 5 "\x7b\"a\": 1\x7d"
          = pre ++ "\x7b\"a\": 1\x7d" ++ post := by
  constructor
  · rfl
  · rintro ⟨pre, post, h⟩
    have hd := congrArg String.data h
    rw [string_data_append, string_data_append] at hd
    have hsp : ' ' ∈ ("\x7b\"a\": 1\x7d" : String).data := by decide
    have hmem : ' ' ∈ (marshalRecord 5 "\x7b\"a\": 1\x7d").data := by
      rw [hd]
      exact List.mem_append_left _ (List.mem_append_right _ hsp)
    exact absurd hmem (by decide)

/-- C6 (amended): for every call to an open recorder, a valid-JSON
payload causes exactly one newline-terminated record to be appended,
containing the capture timestamp and the payload as serialized by Go's
marshaller — compacted and HTML-escaped — which is the payload
byte-for-byte whenever it contains no inter-token whitespace and none
of the escaped characters; an invalid payload leaves the file unchanged
(and nothing signals an error). -/
theorem recorder_record_message (jsonValid : String → Bool) (now : Int)
    (msg : String) (lines : List String) :
    (jsonValid msg = true →
      RecordMessage jsonValid now msg ⟨some lines⟩
          = ⟨some (lines ++ [marshalRecord now msg])⟩
        ∧ (lines ++ [marshalRecord now msg]).length = lines.length + 1
        ∧ marshalRecord now msg = marshalRecordBody now msg ++ "\n"
        ∧ (∃ pre post,
            marshalRecord now msg = pre ++ compactEscape msg ++ post)
        ∧ ((∀ c ∈ msg.data, jsonPlainChar c = true)
            → compactEscape msg = msg))
    ∧ (jsonValid msg = false →
      RecordMessage jsonValid now msg ⟨some lines⟩ = ⟨some lines⟩) := by
  constructor
  · intro hv
    refine ⟨by simp [RecordMessage, hv], by simp, rfl, ?_,
      compactEscape_plain msg⟩
    refine ⟨"\x7b\"timestamp\":" ++ toString now ++ ",\"data\":",
      "\x7d" ++ "\n", ?_⟩
    apply string_ext
    simp [marshalRecord, marshalRecordBody, string_data_append]
  · intro hv
    simp [RecordMessage, hv]

/-- Witness for C6: a validity predicate accepting only "5", exercising
the valid branch (with the payload stored verbatim, being plain) and
the invalid branch. -/
theorem recorder_record_message_witness :
    (RecordMessage (fun s => s == "5") 7 "5" ⟨some []⟩
        = ⟨some ([] ++ [marshalRecord 7 "5"])⟩
      ∧ compactEscape "5" = "5")
      ∧ RecordMessage (fun s => s == "5") 7 "q" ⟨some []⟩ = ⟨some []⟩ :=
  ⟨⟨((recorder_record_message (fun s => s == "5") 7 "5" []).1 (by decide)).1,
    ((recorder_record_message (fun s => s == "5") 7 "5" []).1
      (by decide)).2.2.2.2 (by decide)⟩,
   (recorder_record_message (fun s => s == "5") 7 "q" []).2 (by decide)⟩

/-- C9: with a non-empty scenario list and no resolved replay target,
selection returns the (first) scenario whose name equals the requested
name when one exists, and otherwise — no name requested, no matching
name, or a requested replay recording not found — the first configured
scenario. -/
theorem scenario_selection (statOk : String → Bool)
    (scenarios : List Scenario)
    (recordingPath scenarioName replaySessionName : String)
    (hne : scenarios ≠ [])
    (hnoreplay :
      resolveReplayPath statOk recordingPath replaySessionName = none) :
    (∀ s, scenarios.find? (fun sc => sc.name == scenarioName) = some s →
      scenarioName ≠ "" →
      selectSession statOk scenarios recordingPath scenarioName
          replaySessionName = .scenario s
        ∧ s.name = scenarioName)
    ∧ ((scenarioName = ""
        ∨ scenarios.find? (fun sc => sc.name == scenarioName) = none) →
      selectSession statOk scenarios recordingPath scenarioName
          replaySessionName = .scenario (scenarios.head hne)) := by
  constructor
  · intro s hfind hname
    have hnn : (scenarioName == "") = false := by
      simpa using hname
    refine ⟨?_, ?_⟩
    · simp [selectSession, hnoreplay, hnn, hfind]
    · have := List.find?_some hfind
      simpa using this
  · intro hdef
    cases scenarios with
    | nil => exact absurd rfl hne
    | cons s0 rest =>
      rcases hdef with h | h
      · simp [selectSession, hnoreplay, h]
      · by_cases hnn : (scenarioName == "") = true
        · simp [selectSession, hnoreplay, hnn]
        · simp [selectSession, hnoreplay, hnn, h]

/-- Witness for C9: two scenarios "a" and "b"; requesting "b" selects
"b", requesting an unknown name falls back to "a". -/
theorem scenario_selection_witness :
    (selectSession (fun _ => false) [⟨"a", []⟩, ⟨"b", []⟩] "" "b" ""
        = .scenario ⟨"b", []⟩
      ∧ (Scenario.mk "b" []).name = "b")
    ∧ selectSession (fun _ => false) [⟨"a", []⟩, ⟨"b", []⟩] "" "zz" ""
        = .scenario ⟨"a", []⟩ :=
  ⟨(scenario_selection (fun _ => false) [⟨"a", []⟩, ⟨"b", []⟩] "" "b" ""
      (by simp) rfl).1 ⟨"b", []⟩ (by rfl) (by decide),
   (scenario_selection (fun _ => false) [⟨"a", []⟩, ⟨"b", []⟩] "" "zz" ""
      (by simp) rfl).2 (Or.inr (by rfl))⟩

/-- On an always-successful connection a streaming loop completes and
sends exactly one frame per element, in order. -/
theorem sendLoop_allOk {α : Type} (mk : α → Frame) (xs : List α) :
    ∀ s : EmitState,
      sendLoop (fun _ => true) mk xs s
        = (⟨s.ctr + xs.length, s.attempts ++ xs.map mk,
            s.sent ++ xs.map mk⟩, true) := by
  induction xs with
  | nil => intro s; simp [sendLoop]
  | cons x xs ih =>
    intro s
    simp [sendLoop, sendEvent, ih, List.append_assoc]
    omega

/-- The chunks of a byte string concatenate back to it. -/
theorem chunkBytesGo_join_aux :
    ∀ (n : Nat) (l : List Char), l.length ≤ n →
      (chunkBytesGo l).join = l := by
  intro n
  induction n with
  | zero =>
    intro l hl
    have hnil : l = [] := List.length_eq_zero.mp (Nat.le_zero.mp hl)
    subst hnil
    simp [chunkBytesGo]
  | succ n ih =>
    intro l hl
    by_cases h : l = []
    · subst h; simp [chunkBytesGo]
    · rw [chunkBytesGo, dif_neg h]
      have hdrop : (l.drop 10).length ≤ n := by
        have : 0 < l.length := List.length_pos.mpr h
        simp only [List.length_drop]
        omega
      simp [ih (l.drop 10) hdrop]

theorem chunkBytesGo_join (l : List Char) : (chunkBytesGo l).join = l :=
  chunkBytesGo_join_aux l.length l le_rfl

theorem string_join_data :
    ∀ (l : List String) (a : String),
      (l.foldl (fun r s => r ++ s) a).data
        = a.data ++ (l.map String.data).join := by
  intro l
  induction l with
  | nil => intro a; simp
  | cons x xs ih =>
    intro a
    simp [ih, string_data_append, List.append_assoc]

/-- The chunks of the arguments string concatenate back to it. -/
theorem chunkArguments_join (args : String) :
    String.join (chunkArguments args) = args := by
  apply string_ext
  have h1 : (String.join (chunkArguments args)).data
      = ((chunkArguments args).map String.data).join := by
    simpa [String.join] using
      string_join_data (chunkArguments args) ""
  rw [h1]
  have h2 : (chunkArguments args).map String.data = chunkBytesGo args.data := by
    simp only [chunkArguments, List.map_map]
    have hmk : ∀ x : List Char, (String.mk x).data = x := fun x => rfl
    simp [Function.comp_def, hmk]
  rw [h2, chunkBytesGo_join]

/-- C4: for a function_call event, the concatenation of all
`arguments.delta` payloads in emission order equals the configured
arguments string exactly, and the `arguments.done` frame carries that
same string as its full-arguments field. -/
theorem function_call_arguments_faithful (name args : String) :
    sentPayloadConcat "response.function_call_arguments.delta"
        (sendFunctionCall (fun _ => true) (some ⟨name, args⟩)
          EmitState.empty) = args
      ∧ (sendFunctionCall (fun _ => true) (some ⟨name, args⟩)
            EmitState.empty).sent.filter
          (fun f => f.etype == "response.function_call_arguments.done")
        = [⟨"response.function_call_arguments.done", args⟩] := by
  have hrun : (sendFunctionCall (fun _ => true) (some ⟨name, args⟩)
      EmitState.empty).sent
      = [⟨"response.created", ""⟩, ⟨"conversation.item.created", ""⟩,
         ⟨"response.output_item.added", ""⟩]
        ++ (chunkArguments args).map
            (fun c => ⟨"response.function_call_arguments.delta", c⟩)
        ++ [⟨"response.function_call_arguments.done", args⟩,
            ⟨"response.done", args⟩] := by
    simp [sendFunctionCall, sendEvent, EmitState.empty, sendLoop_allOk,
      List.append_assoc]
  constructor
  · rw [sentPayloadConcat, hrun]
    have hfilter :
        (([⟨"response.created", ""⟩, ⟨"conversation.item.created", ""⟩,
           ⟨"response.output_item.added", ""⟩]
          ++ (chunkArguments args).map
              (fun c => ⟨"response.function_call_arguments.delta", c⟩)
          ++ [⟨"response.function_call_arguments.done", args⟩,
              ⟨"response.done", args⟩] : List Frame).filter
            (fun f => f.etype == "response.function_call_arguments.delta"))
          = (chunkArguments args).map
              (fun c => ⟨"response.function_call_arguments.delta", c⟩) := by
      simp [List.filter_append, List.filter_map, Function.comp_def]
    rw [hfilter]
    have hmap : ((chunkArguments args).map
        (fun c => (⟨"response.function_call_arguments.delta", c⟩ : Frame))).map
          Frame.payload = chunkArguments args := by
      simp [List.map_map, Function.comp_def]
    rw [hmap, chunkArguments_join]
  · rw [hrun]
    simp [List.filter_append, List.filter_map, Function.comp_def]

/-- C5 counterexample: the claim "no later event of the scenario is
executed" is false.  With a connection whose writes all fail, a single
message event performs exactly one write attempt before aborting, yet a
two-event scenario performs two write attempts: the scenario loop went
on to execute the second event after the first event's send failed. -/
theorem scenario_abort_counterexample :
    (runEvent (fun _ => false) ⟨"", none⟩ ⟨"message", 0, "", none⟩
        EmitState.empty).attempts.length = 1
      ∧ (runScenario (fun _ => false) ⟨"", none⟩
          ⟨"s", [⟨"message", 0, "", none⟩, ⟨"message", 0, "", none⟩]⟩
          EmitState.empty).attempts.length = 2 := by
  constructor <;> rfl

theorem take_append_of_le {α : Type} (k : Nat) (l₁ l₂ : List α)
    (h : k ≤ l₁.length) : (l₁ ++ l₂).take k = l₁.take k := by
  rw [List.take_append_eq_append_take]
  simp [Nat.sub_eq_zero_of_le h]

/-- A dead-phase invariant is stable under any extension of the
failure-free run. -/
theorem SimDead_ext {k : Nat} {sf so so2 : EmitState} (h : SimDead k sf so)
    (Δ : List Frame) (hs : so2.sent = so.sent ++ Δ)
    (hc : so2.ctr = so.ctr + Δ.length) : SimDead k sf so2 := by
  obtain ⟨h1, h2, h3, h4⟩ := h
  refine ⟨h1, by omega, by simp [hs, hc, h3], ?_⟩
  rw [hs, take_append_of_le k so.sent Δ (by omega), h4]

theorem SimDead_send {k : Nat} {sf so : EmitState} (f : Frame)
    (h : SimDead k sf so) :
    SimDead k sf (sendEvent (fun _ => true) f so).1 :=
  SimDead_ext h [f] rfl rfl

theorem SimDead_sendLoop {α : Type} {k : Nat} {sf so : EmitState}
    (mk : α → Frame) (xs : List α) (h : SimDead k sf so) :
    SimDead k sf (sendLoop (fun _ => true) mk xs so).1 := by
  rw [sendLoop_allOk]
  exact SimDead_ext h (xs.map mk) rfl (by simp)

/-- The failure-free run of the audio sub-stream only appends. -/
theorem streamAudio_allOk_ext (ad : Option (List String)) (so : EmitState) :
    ∃ Δ : List Frame,
      (streamAudio (fun _ => true) ad so).sent = so.sent ++ Δ
        ∧ (streamAudio (fun _ => true) ad so).ctr = so.ctr + Δ.length := by
  cases ad with
  | none => exact ⟨[], by simp [streamAudio], by simp [streamAudio]⟩
  | some chunks =>
    refine ⟨chunks.map (fun c => ⟨"response.audio.delta", c⟩)
        ++ [⟨"response.output_audio.done", ""⟩], ?_, ?_⟩
    · simp [streamAudio, sendLoop_allOk, sendEvent, List.append_assoc]
    · simp [streamAudio, sendLoop_allOk, sendEvent]
      omega

/-- The failure-free run of the transcript sub-stream only appends. -/
theorem streamTranscript_allOk_ext (text : String) (so : EmitState) :
    ∃ Δ : List Frame,
      (streamTranscript (fun _ => true) text so).sent = so.sent ++ Δ
        ∧ (streamTranscript (fun _ => true) text so).ctr
          = so.ctr + Δ.length := by
  by_cases he : (stringFields text).isEmpty
  · exact ⟨[], by simp [streamTranscript, he], by simp [streamTranscript, he]⟩
  · refine ⟨(stringFields text).map
        (fun w => ⟨"response.audio_transcript.delta", w ++ " "⟩)
        ++ [⟨"response.output_audio_transcript.done", text⟩], ?_, ?_⟩
    · simp [streamTranscript, he, sendLoop_allOk, sendEvent,
        List.append_assoc]
    · simp [streamTranscript, he, sendLoop_allOk, sendEvent]
      omega

theorem SimDead_streamAudio {k : Nat} {sf so : EmitState}
    (ad : Option (List String)) (h : SimDead k sf so) :
    SimDead k sf (streamAudio (fun _ => true) ad so) := by
  obtain ⟨Δ, h1, h2⟩ := streamAudio_allOk_ext ad so
  exact SimDead_ext h Δ h1 h2

theorem SimDead_streamTranscript {k : Nat} {sf so : EmitState}
    (text : String) (h : SimDead k sf so) :
    SimDead k sf (streamTranscript (fun _ => true) text so) := by
  obtain ⟨Δ, h1, h2⟩ := streamTranscript_allOk_ext text so
  exact SimDead_ext h Δ h1 h2

theorem SimDead_audio_cond {k : Nat} {sf so : EmitState} (c : Prop)
    [Decidable c] (ad : Option (List String)) (h : SimDead k sf so) :
    SimDead k sf (if c then streamAudio (fun _ => true) ad so else so) := by
  split_ifs with hc
  · exact SimDead_streamAudio ad h
  · exact h

theorem SimDead_transcript_cond {k : Nat} {sf so : EmitState} (c : Prop)
    [Decidable c] (text : String) (h : SimDead k sf so) :
    SimDead k sf (if c then streamTranscript (fun _ => true) text so
      else so) := by
  split_ifs with hc
  · exact SimDead_streamTranscript text h
  · exact h

/-- One write preserves the simulation, and a failed write lands it in
the dead phase. -/
theorem sendEvent_sim {k : Nat} {sf so : EmitState} (f : Frame)
    (h : SimRel k sf so) :
    SimRel k (sendEvent (failK k) f sf).1 (sendEvent (fun _ => true) f so).1
      ∧ ((sendEvent (failK k) f sf).2 = false
        → SimDead k (sendEvent (failK k) f sf).1
            (sendEvent (fun _ => true) f so).1) := by
  rcases h with ⟨heq, hlen, hle⟩ | hdead
  · subst heq
    by_cases hlt : sf.ctr < k
    · have hbit : (sendEvent (failK k) f sf).2 = true := by
        simp [sendEvent, failK, hlt]
      refine ⟨Or.inl ⟨?_, ?_, ?_⟩,
        fun hfalse => absurd hbit (by simp [hfalse])⟩
      · simp [sendEvent, failK, hlt]
      · simp [sendEvent, hlen]
      · simp [sendEvent]; omega
    · have hd : SimDead k (sendEvent (failK k) f sf).1
          (sendEvent (fun _ => true) f sf).1 := by
        refine ⟨?_, ?_, ?_, ?_⟩
        · simp [sendEvent]; omega
        · simp [sendEvent]; omega
        · simp [sendEvent, hlen]
        · have hbit : failK k sf.ctr = false := by
            simp [failK]; omega
          simp only [sendEvent, hbit, Bool.false_eq_true, if_false,
            if_true]
          rw [take_append_of_le k sf.sent [f] (by omega),
            List.take_of_length_le (by omega)]
      exact ⟨Or.inr hd, fun _ => hd⟩
  · obtain ⟨h1, h2, h3, h4⟩ := hdead
    have hd : SimDead k (sendEvent (failK k) f sf).1
        (sendEvent (fun _ => true) f so).1 := by
      refine ⟨?_, ?_, ?_, ?_⟩
      · simp [sendEvent]; omega
      · simp [sendEvent]; omega
      · simp [sendEvent, h3]
      · have hbit : failK k sf.ctr = false := by
          simp [failK]; omega
        simp only [sendEvent, hbit, Bool.false_eq_true, if_false,
          if_true]
        rw [take_append_of_le k so.sent [f] (by omega)]
        exact h4
    exact ⟨Or.inr hd, fun _ => hd⟩

theorem sendLoop_sim {α : Type} {k : Nat} (mk : α → Frame)
    (xs : List α) :
    ∀ {sf so : EmitState}, SimRel k sf so →
      SimRel k (sendLoop (failK k) mk xs sf).1
          (sendLoop (fun _ => true) mk xs so).1
        ∧ ((sendLoop (failK k) mk xs sf).2 = false
          → SimDead k (sendLoop (failK k) mk xs sf).1
              (sendLoop (fun _ => true) mk xs so).1) := by
  induction xs with
  | nil =>
    intro sf so h
    exact ⟨h, fun hfalse => by simp [sendLoop] at hfalse⟩
  | cons x xs ih =>
    intro sf so h
    obtain ⟨hrel, hdead⟩ := sendEvent_sim (mk x) h
    have e2 : sendLoop (fun _ => true) mk (x :: xs) so
        = sendLoop (fun _ => true) mk xs
            (sendEvent (fun _ => true) (mk x) so).1 := rfl
    by_cases hb : (sendEvent (failK k) (mk x) sf).2 = true
    · have e1 : sendLoop (failK k) mk (x :: xs) sf
          = sendLoop (failK k) mk xs (sendEvent (failK k) (mk x) sf).1 := by
        simp [sendLoop, hb]
      rw [e1, e2]
      exact ih hrel
    · have hbf : (sendEvent (failK k) (mk x) sf).2 = false := by
        simpa using hb
      have hd := hdead hbf
      have hd2 : SimDead k (sendEvent (failK k) (mk x) sf).1
          (sendLoop (fun _ => true) mk xs
            (sendEvent (fun _ => true) (mk x) so).1).1 :=
        SimDead_sendLoop mk xs hd
      have e1 : sendLoop (failK k) mk (x :: xs) sf
          = ((sendEvent (failK k) (mk x) sf).1, false) := by
        simp [sendLoop, hbf]
      rw [e1, e2]
      exact ⟨Or.inr hd2, fun _ => hd2⟩

theorem streamAudio_sim {k : Nat} (ad : Option (List String))
    {sf so : EmitState} (h : SimRel k sf so) :
    SimRel k (streamAudio (failK k) ad sf)
      (streamAudio (fun _ => true) ad so) := by
  cases ad with
  | none => simpa [streamAudio] using h
  | some chunks =>
    obtain ⟨hrel, hdead⟩ :=
      sendLoop_sim (fun c => (⟨"response.audio.delta", c⟩ : Frame)) chunks h
    have hok2 : (sendLoop (fun _ => true)
        (fun c => (⟨"response.audio.delta", c⟩ : Frame)) chunks so).2
        = true := by
      rw [sendLoop_allOk]
    have e2 : streamAudio (fun _ => true) (some chunks) so
        = (sendEvent (fun _ => true) ⟨"response.output_audio.done", ""⟩
            (sendLoop (fun _ => true)
              (fun c => (⟨"response.audio.delta", c⟩ : Frame))
              chunks so).1).1 := by
      simp [streamAudio, hok2]
    by_cases hb : (sendLoop (failK k)
        (fun c => (⟨"response.audio.delta", c⟩ : Frame)) chunks sf).2
        = true
    · have e1 : streamAudio (failK k) (some chunks) sf
          = (sendEvent (failK k) ⟨"response.output_audio.done", ""⟩
              (sendLoop (failK k)
                (fun c => (⟨"response.audio.delta", c⟩ : Frame))
                chunks sf).1).1 := by
        simp [streamAudio, hb]
      rw [e1, e2]
      exact (sendEvent_sim _ hrel).1
    · have hbf : (sendLoop (failK k)
          (fun c => (⟨"response.audio.delta", c⟩ : Frame)) chunks sf).2
          = false := by simpa using hb
      have hd := hdead hbf
      have e1 : streamAudio (failK k) (some chunks) sf
          = (sendLoop (failK k)
              (fun c => (⟨"response.audio.delta", c⟩ : Frame))
              chunks sf).1 := by
        simp [streamAudio, hbf]
      rw [e1, e2]
      exact Or.inr (SimDead_send _ hd)

theorem streamTranscript_sim {k : Nat} (text : String)
    {sf so : EmitState} (h : SimRel k sf so) :
    SimRel k (streamTranscript (failK k) text sf)
      (streamTranscript (fun _ => true) text so) := by
  by_cases he : (stringFields text).isEmpty
  · simpa [streamTranscript, he] using h
  · obtain ⟨hrel, hdead⟩ := sendLoop_sim
      (fun w => (⟨"response.audio_transcript.delta", w ++ " "⟩ : Frame))
      (stringFields text) h
    have hok2 : (sendLoop (fun _ => true)
        (fun w => (⟨"response.audio_transcript.delta", w ++ " "⟩ : Frame))
        (stringFields text) so).2 = true := by
      rw [sendLoop_allOk]
    have e2 : streamTranscript (fun _ => true) text so
        = (sendEvent (fun _ => true)
            ⟨"response.output_audio_transcript.done", text⟩
            (sendLoop (fun _ => true)
              (fun w => (⟨"response.audio_transcript.delta",
                w ++ " "⟩ : Frame))
              (stringFields text) so).1).1 := by
      simp [streamTranscript, he, hok2]
    by_cases hb : (sendLoop (failK k)
        (fun w => (⟨"response.audio_transcript.delta", w ++ " "⟩ : Frame))
        (stringFields text) sf).2 = true
    · have e1 : streamTranscript (failK k) text sf
          = (sendEvent (failK k)
              ⟨"response.output_audio_transcript.done", text⟩
              (sendLoop (failK k)
                (fun w => (⟨"response.audio_transcript.delta",
                  w ++ " "⟩ : Frame))
                (stringFields text) sf).1).1 := by
        simp [streamTranscript, he, hb]
      rw [e1, e2]
      exact (sendEvent_sim _ hrel).1
    · have hbf : (sendLoop (failK k)
          (fun w => (⟨"response.audio_transcript.delta",
            w ++ " "⟩ : Frame))
          (stringFields text) sf).2 = false := by simpa using hb
      have hd := hdead hbf
      have e1 : streamTranscript (failK k) text sf
          = (sendLoop (failK k)
              (fun w => (⟨"response.audio_transcript.delta",
                w ++ " "⟩ : Frame))
              (stringFields text) sf).1 := by
        simp [streamTranscript, he, hbf]
      rw [e1, e2]
      exact Or.inr (SimDead_send _ hd)

/-- A two-send tail (abort on the first failure, final write error
ignored) preserves the simulation. -/
theorem tail2_sim {k : Nat} (fA fB : Frame) {sf so : EmitState}
    (h : SimRel k sf so) :
    SimRel k
      (if (!(sendEvent (failK k) fA sf).2) = true
        then (sendEvent (failK k) fA sf).1
        else (sendEvent (failK k) fB (sendEvent (failK k) fA sf).1).1)
      ((sendEvent (fun _ => true) fB
        (sendEvent (fun _ => true) fA so).1).1) := by
  obtain ⟨hrelA, hdeadA⟩ := sendEvent_sim fA h
  by_cases hbA : (sendEvent (failK k) fA sf).2 = true
  · simp only [hbA, Bool.not_true, Bool.false_eq_true, if_false]
    exact (sendEvent_sim fB hrelA).1
  · have hbfA : (sendEvent (failK k) fA sf).2 = false := by simpa using hbA
    simp only [hbfA, Bool.not_false, eq_self_iff_true, if_true]
    exact Or.inr (SimDead_send _ (hdeadA hbfA))

/-- A three-send tail (abort on the first two failures, final write
error ignored) preserves the simulation. -/
theorem tail3_sim {k : Nat} (fA fB fC : Frame) {sf so : EmitState}
    (h : SimRel k sf so) :
    SimRel k
      (if (!(sendEvent (failK k) fA sf).2) = true
        then (sendEvent (failK k) fA sf).1
        else if (!(sendEvent (failK k) fB
            (sendEvent (failK k) fA sf).1).2) = true
          then (sendEvent (failK k) fB (sendEvent (failK k) fA sf).1).1
          else (sendEvent (failK k) fC
            (sendEvent (failK k) fB (sendEvent (failK k) fA sf).1).1).1)
      ((sendEvent (fun _ => true) fC (sendEvent (fun _ => true) fB
        (sendEvent (fun _ => true) fA so).1).1).1) := by
  obtain ⟨hrelA, hdeadA⟩ := sendEvent_sim fA h
  by_cases hbA : (sendEvent (failK k) fA sf).2 = true
  · simp only [hbA, Bool.not_true, Bool.false_eq_true, if_false]
    obtain ⟨hrelB, hdeadB⟩ := sendEvent_sim fB hrelA
    by_cases hbB : (sendEvent (failK k) fB
        (sendEvent (failK k) fA sf).1).2 = true
    · simp only [hbB, Bool.not_true, Bool.false_eq_true, if_false]
      exact (sendEvent_sim fC hrelB).1
    · have hbfB : (sendEvent (failK k) fB
          (sendEvent (failK k) fA sf).1).2 = false := by simpa using hbB
      simp only [hbfB, Bool.not_false, eq_self_iff_true, if_true]
      exact Or.inr (SimDead_send _ (hdeadB hbfB))
  · have hbfA : (sendEvent (failK k) fA sf).2 = false := by simpa using hbA
    simp only [hbfA, Bool.not_false, eq_self_iff_true, if_true]
    exact Or.inr (SimDead_send _ (SimDead_send _ (hdeadA hbfA)))

theorem streamAudio_cond_sim {k : Nat} (c : Prop) [Decidable c]
    (ad : Option (List String)) {sf so : EmitState} (h : SimRel k sf so) :
    SimRel k (if c then streamAudio (failK k) ad sf else sf)
      (if c then streamAudio (fun _ => true) ad so else so) := by
  split_ifs with hc
  · exact streamAudio_sim ad h
  · exact h

theorem streamTranscript_cond_sim {k : Nat} (c : Prop) [Decidable c]
    (text : String) {sf so : EmitState} (h : SimRel k sf so) :
    SimRel k (if c then streamTranscript (failK k) text sf else sf)
      (if c then streamTranscript (fun _ => true) text so else so) := by
  split_ifs with hc
  · exact streamTranscript_sim text h
  · exact h

/-- The message-event lifecycle preserves the simulation. -/
theorem streamMessageResponse_sim {k : Nat} (cfg : MockCfg)
    (text : String) {sf so : EmitState} (h : SimRel k sf so) :
    SimRel k (streamMessageResponse (failK k) cfg text sf)
      (streamMessageResponse (fun _ => true) cfg text so) := by
  have hoks : ∀ (f : Frame) (s : EmitState),
      (sendEvent (fun _ => true) f s).2 = true := fun _ _ => rfl
  simp only [streamMessageResponse, hoks, Bool.not_true,
    Bool.false_eq_true, if_false]
  obtain ⟨hrel1, hdead1⟩ := sendEvent_sim ⟨"response.created", ""⟩ h
  by_cases hb1 : (sendEvent (failK k) ⟨"response.created", ""⟩ sf).2 = true
  · simp only [hb1, Bool.not_true, Bool.false_eq_true, if_false]
    obtain ⟨hrel2, hdead2⟩ := sendEvent_sim ⟨"response.output_item.added", ""⟩ hrel1
    by_cases hb2 : (sendEvent (failK k) ⟨"response.output_item.added", ""⟩ (sendEvent (failK k) ⟨"response.created", ""⟩ sf).1).2 = true
    · simp only [hb2, Bool.not_true, Bool.false_eq_true, if_false]
      obtain ⟨hrel3, hdead3⟩ := sendEvent_sim ⟨"conversation.item.created", ""⟩ hrel2
      by_cases hb3 : (sendEvent (failK k) ⟨"conversation.item.created", ""⟩ (sendEvent (failK k) ⟨"response.output_item.added", ""⟩ (sendEvent (failK k) ⟨"response.created", ""⟩ sf).1).1).2 = true
      · simp only [hb3, Bool.not_true, Bool.false_eq_true, if_false]
        obtain ⟨hrel4, hdead4⟩ := sendEvent_sim ⟨"response.content_part.added", ""⟩ hrel3
        by_cases hb4 : (sendEvent (failK k) ⟨"response.content_part.added", ""⟩ (sendEvent (failK k) ⟨"conversation.item.created", ""⟩ (sendEvent (failK k) ⟨"response.output_item.added", ""⟩ (sendEvent (failK k) ⟨"response.created", ""⟩ sf).1).1).1).2 = true
        · simp only [hb4, Bool.not_true, Bool.false_eq_true, if_false]
          have hrel5 := streamAudio_cond_sim (k := k)
            (cfg.audioWavPath ≠ "") cfg.audioData hrel4
          have hrel6 := streamTranscript_cond_sim (k := k)
            (text ≠ "") text hrel5
          exact tail3_sim ⟨"response.content_part.done", text⟩
            ⟨"response.output_item.done", text⟩ ⟨"response.done", text⟩ hrel6
        · have hbf4 : (sendEvent (failK k) ⟨"response.content_part.added", ""⟩ (sendEvent (failK k) ⟨"conversation.item.created", ""⟩ (sendEvent (failK k) ⟨"response.output_item.added", ""⟩ (sendEvent (failK k) ⟨"response.created", ""⟩ sf).1).1).1).2 = false := by
            simpa using hb4
          simp only [hbf4, Bool.not_false, eq_self_iff_true, if_true]
          exact Or.inr (SimDead_send _ (SimDead_send _ (SimDead_send _ (SimDead_transcript_cond _ _ (SimDead_audio_cond _ _ (hdead4 hbf4))))))
      · have hbf3 : (sendEvent (failK k) ⟨"conversation.item.created", ""⟩ (sendEvent (failK k) ⟨"response.output_item.added", ""⟩ (sendEvent (failK k) ⟨"response.created", ""⟩ sf).1).1).2 = false := by
          simpa using hb3
        simp only [hbf3, Bool.not_false, eq_self_iff_true, if_true]
        exact Or.inr (SimDead_send _ (SimDead_send _ (SimDead_send _ (SimDead_transcript_cond _ _ (SimDead_audio_cond _ _ (SimDead_send _ (hdead3 hbf3)))))))
    · have hbf2 : (sendEvent (failK k) ⟨"response.output_item.added", ""⟩ (sendEvent (failK k) ⟨"response.created", ""⟩ sf).1).2 = false := by
        simpa using hb2
      simp only [hbf2, Bool.not_false, eq_self_iff_true, if_true]
      exact Or.inr (SimDead_send _ (SimDead_send _ (SimDead_send _ (SimDead_transcript_cond _ _ (SimDead_audio_cond _ _ (SimDead_send _ (SimDead_send _ (hdead2 hbf2))))))))
  · have hbf1 : (sendEvent (failK k) ⟨"response.created", ""⟩ sf).2 = false := by
      simpa using hb1
    simp only [hbf1, Bool.not_false, eq_self_iff_true, if_true]
    exact Or.inr (SimDead_send _ (SimDead_send _ (SimDead_send _ (SimDead_transcript_cond _ _ (SimDead_audio_cond _ _ (SimDead_send _ (SimDead_send _ (SimDead_send _ (hdead1 hbf1)))))))))

/-- The function-call lifecycle preserves the simulation. -/
theorem sendFunctionCall_sim {k : Nat}
    (ofc : Option FunctionCallDefinition) {sf so : EmitState}
    (h : SimRel k sf so) :
    SimRel k (sendFunctionCall (failK k) ofc sf)
      (sendFunctionCall (fun _ => true) ofc so) := by
  cases ofc with
  | none => simpa [sendFunctionCall] using h
  | some fc =>
    have hoks : ∀ (f : Frame) (s : EmitState),
        (sendEvent (fun _ => true) f s).2 = true := fun _ _ => rfl
    have hokL : (sendLoop (fun _ => true) (fun c => (⟨"response.function_call_arguments.delta", c⟩ : Frame)) (chunkArguments fc.arguments) (sendEvent (fun _ => true) ⟨"response.output_item.added", ""⟩ (sendEvent (fun _ => true) ⟨"conversation.item.created", ""⟩ (sendEvent (fun _ => true) ⟨"response.created", ""⟩ so).1).1).1).2 = true := by
      rw [sendLoop_allOk]
    simp only [sendFunctionCall, hoks, hokL, Bool.not_true,
      Bool.false_eq_true, if_false]
    obtain ⟨hrel1, hdead1⟩ := sendEvent_sim ⟨"response.created", ""⟩ h
    by_cases hb1 : (sendEvent (failK k) ⟨"response.created", ""⟩ sf).2 = true
    · simp only [hb1, Bool.not_true, Bool.false_eq_true, if_false]
      obtain ⟨hrel2, hdead2⟩ := sendEvent_sim ⟨"conversation.item.created", ""⟩ hrel1
      by_cases hb2 : (sendEvent (failK k) ⟨"conversation.item.created", ""⟩ (sendEvent (failK k) ⟨"response.created", ""⟩ sf).1).2 = true
      · simp only [hb2, Bool.not_true, Bool.false_eq_true, if_false]
        obtain ⟨hrel3, hdead3⟩ := sendEvent_sim ⟨"response.output_item.added", ""⟩ hrel2
        by_cases hb3 : (sendEvent (failK k) ⟨"response.output_item.added", ""⟩ (sendEvent (failK k) ⟨"conversation.item.created", ""⟩ (sendEvent (failK k) ⟨"response.created", ""⟩ sf).1).1).2 = true
        · simp only [hb3, Bool.not_true, Bool.false_eq_true, if_false]
          obtain ⟨hrelL, hdeadL⟩ := sendLoop_sim (fun c => (⟨"response.function_call_arguments.delta", c⟩ : Frame))
            (chunkArguments fc.arguments) hrel3
          by_cases hbL : (sendLoop (failK k) (fun c => (⟨"response.function_call_arguments.delta", c⟩ : Frame)) (chunkArguments fc.arguments) (sendEvent (failK k) ⟨"response.output_item.added", ""⟩ (sendEvent (failK k) ⟨"conversation.item.created", ""⟩ (sendEvent (failK k) ⟨"response.created", ""⟩ sf).1).1).1).2 = true
          · simp only [hbL, Bool.not_true, Bool.false_eq_true, if_false]
            exact tail2_sim ⟨"response.function_call_arguments.done",
              fc.arguments⟩ ⟨"response.done", fc.arguments⟩ hrelL
          · have hbfL : (sendLoop (failK k) (fun c => (⟨"response.function_call_arguments.delta", c⟩ : Frame)) (chunkArguments fc.arguments) (sendEvent (failK k) ⟨"response.output_item.added", ""⟩ (sendEvent (failK k) ⟨"conversation.item.created", ""⟩ (sendEvent (failK k) ⟨"response.created", ""⟩ sf).1).1).1).2 = false := by simpa using hbL
            simp only [hbfL, Bool.not_false, eq_self_iff_true, if_true]
            exact Or.inr (SimDead_send _ (SimDead_send _ (hdeadL hbfL)))
        · have hbf3 : (sendEvent (failK k) ⟨"response.output_item.added", ""⟩ (sendEvent (failK k) ⟨"conversation.item.created", ""⟩ (sendEvent (failK k) ⟨"response.created", ""⟩ sf).1).1).2 = false := by
            simpa using hb3
          simp only [hbf3, Bool.not_false, eq_self_iff_true, if_true]
          exact Or.inr (SimDead_send _ (SimDead_send _ (SimDead_sendLoop _ _ (hdead3 hbf3))))
      · have hbf2 : (sendEvent (failK k) ⟨"conversation.item.created", ""⟩ (sendEvent (failK k) ⟨"response.created", ""⟩ sf).1).2 = false := by
          simpa using hb2
        simp only [hbf2, Bool.not_false, eq_self_iff_true, if_true]
        exact Or.inr (SimDead_send _ (SimDead_send _ (SimDead_sendLoop _ _ (SimDead_send _ (hdead2 hbf2)))))
    · have hbf1 : (sendEvent (failK k) ⟨"response.created", ""⟩ sf).2 = false := by
        simpa using hb1
      simp only [hbf1, Bool.not_false, eq_self_iff_true, if_true]
      exact Or.inr (SimDead_send _ (SimDead_send _ (SimDead_sendLoop _ _ (SimDead_send _ (SimDead_send _ (hdead1 hbf1))))))

/-- The user-transcription sequence preserves the simulation. -/
theorem sendUserTranscription_sim {k : Nat} (text : String)
    {sf so : EmitState} (h : SimRel k sf so) :
    SimRel k (sendUserTranscription (failK k) text sf)
      (sendUserTranscription (fun _ => true) text so) := by
  have hoks : ∀ (f : Frame) (s : EmitState),
      (sendEvent (fun _ => true) f s).2 = true := fun _ _ => rfl
  simp only [sendUserTranscription, hoks, Bool.not_true,
    Bool.false_eq_true, if_false]
  exact tail3_sim ⟨"input_audio_buffer.committed", ""⟩
    ⟨"conversation.item.created", ""⟩
    ⟨"conversation.item.input_audio_transcription.completed", text⟩ h

/-- Event dispatch preserves the simulation. -/
theorem runEvent_sim {k : Nat} (cfg : MockCfg) (e : Event)
    {sf so : EmitState} (h : SimRel k sf so) :
    SimRel k (runEvent (failK k) cfg e sf)
      (runEvent (fun _ => true) cfg e so) := by
  by_cases h1 : (e.type == "message") = true
  · simp only [runEvent, h1, if_true]
    exact streamMessageResponse_sim cfg e.text h
  · have hf1 : (e.type == "message") = false := by simpa using h1
    by_cases h2 : (e.type == "function_call") = true
    · simp only [runEvent, hf1, Bool.false_eq_true, if_false, h2, if_true]
      exact sendFunctionCall_sim e.functionCall h
    · have hf2 : (e.type == "function_call") = false := by simpa using h2
      by_cases h3 : (e.type == "user_transcription") = true
      · simp only [runEvent, hf1, hf2, Bool.false_eq_true, if_false, h3,
          if_true]
        exact sendUserTranscription_sim e.text h
      · have hf3 : (e.type == "user_transcription") = false := by
          simpa using h3
        simpa only [runEvent, hf1, hf2, hf3, Bool.false_eq_true,
          if_false] using h

/-- The whole scenario loop preserves the simulation. -/
theorem runScenario_sim {k : Nat} (cfg : MockCfg) (events : List Event) :
    ∀ {sf so : EmitState}, SimRel k sf so →
      SimRel k (events.foldl (fun st e => runEvent (failK k) cfg e st) sf)
        (events.foldl (fun st e => runEvent (fun _ => true) cfg e st) so) := by
  induction events with
  | nil => intro sf so h; exact h
  | cons e rest ih =>
    intro sf so h
    exact ih (runEvent_sim cfg e h)

/-- Against a connection dying at the k-th write, a scenario run sends
exactly the first k frames of the failure-free run and nothing after. -/
theorem runScenario_sent_take (cfg : MockCfg) (sc : Scenario) (k : Nat) :
    (runScenario (failK k) cfg sc EmitState.empty).sent
      = ((runScenario (fun _ => true) cfg sc EmitState.empty).sent).take k := by
  have h0 : SimRel k EmitState.empty EmitState.empty :=
    Or.inl ⟨rfl, rfl, Nat.zero_le k⟩
  have hfin := runScenario_sim (k := k) cfg sc.events h0
  rw [runScenario, runScenario]
  rcases hfin with ⟨heq, hlen, hle⟩ | ⟨h1, h2, h3, h4⟩
  · rw [heq, List.take_of_length_le (by omega)]
  · exact h4

/-- Every write grows the attempts log. -/
theorem att_send (ok : Nat → Bool) (f : Frame) {s : EmitState} :
    s.attempts.length < (sendEvent ok f s).1.attempts.length := by
  simp [sendEvent]

theorem att_le_send (ok : Nat → Bool) (f : Frame) {s : EmitState} :
    s.attempts.length ≤ (sendEvent ok f s).1.attempts.length :=
  le_of_lt (att_send ok f)

theorem att_le_sendLoop {α : Type} (ok : Nat → Bool) (mk : α → Frame)
    (xs : List α) : ∀ {s : EmitState},
      s.attempts.length ≤ (sendLoop ok mk xs s).1.attempts.length := by
  induction xs with
  | nil => intro s; exact le_refl _
  | cons x xs ih =>
    intro s
    by_cases hb : (sendEvent ok (mk x) s).2 = true
    · have e1 : sendLoop ok mk (x :: xs) s
          = sendLoop ok mk xs (sendEvent ok (mk x) s).1 := by
        simp [sendLoop, hb]
      rw [e1]
      exact (att_le_send ok (mk x)).trans ih
    · have hbf : (sendEvent ok (mk x) s).2 = false := by simpa using hb
      have e1 : sendLoop ok mk (x :: xs) s
          = ((sendEvent ok (mk x) s).1, false) := by
        simp [sendLoop, hbf]
      rw [e1]
      exact att_le_send ok (mk x)

theorem att_le_streamAudio (ok : Nat → Bool) (ad : Option (List String))
    {s : EmitState} :
    s.attempts.length ≤ (streamAudio ok ad s).attempts.length := by
  cases ad with
  | none => exact le_refl _
  | some chunks =>
    by_cases hb : (sendLoop ok
        (fun c => (⟨"response.audio.delta", c⟩ : Frame)) chunks s).2 = true
    · have e1 : streamAudio ok (some chunks) s
          = (sendEvent ok ⟨"response.output_audio.done", ""⟩
              (sendLoop ok (fun c => (⟨"response.audio.delta", c⟩ : Frame))
                chunks s).1).1 := by
        simp [streamAudio, hb]
      rw [e1]
      exact (att_le_sendLoop ok _ chunks).trans (att_le_send ok _)
    · have hbf : (sendLoop ok
          (fun c => (⟨"response.audio.delta", c⟩ : Frame)) chunks s).2
          = false := by simpa using hb
      have e1 : streamAudio ok (some chunks) s
          = (sendLoop ok (fun c => (⟨"response.audio.delta", c⟩ : Frame))
              chunks s).1 := by
        simp [streamAudio, hbf]
      rw [e1]
      exact att_le_sendLoop ok _ chunks

theorem att_le_streamTranscript (ok : Nat → Bool) (text : String)
    {s : EmitState} :
    s.attempts.length ≤ (streamTranscript ok text s).attempts.length := by
  by_cases he : (stringFields text).isEmpty
  · simp [streamTranscript, he]
  · by_cases hb : (sendLoop ok
        (fun w => (⟨"response.audio_transcript.delta", w ++ " "⟩ : Frame))
        (stringFields text) s).2 = true
    · have e1 : streamTranscript ok text s
          = (sendEvent ok ⟨"response.output_audio_transcript.done", text⟩
              (sendLoop ok
                (fun w => (⟨"response.audio_transcript.delta",
                  w ++ " "⟩ : Frame))
                (stringFields text) s).1).1 := by
        simp [streamTranscript, he, hb]
      rw [e1]
      exact (att_le_sendLoop ok _ (stringFields text)).trans
        (att_le_send ok _)
    · have hbf : (sendLoop ok
          (fun w => (⟨"response.audio_transcript.delta",
            w ++ " "⟩ : Frame))
          (stringFields text) s).2 = false := by simpa using hb
      have e1 : streamTranscript ok text s
          = (sendLoop ok
              (fun w => (⟨"response.audio_transcript.delta",
                w ++ " "⟩ : Frame))
              (stringFields text) s).1 := by
        simp [streamTranscript, he, hbf]
      rw [e1]
      exact att_le_sendLoop ok _ (stringFields text)

theorem att_le_audio_cond (ok : Nat → Bool) (c : Prop) [Decidable c]
    (ad : Option (List String)) {s : EmitState} :
    s.attempts.length
      ≤ (if c then streamAudio ok ad s else s).attempts.length := by
  split_ifs with hc
  · exact att_le_streamAudio ok ad
  · exact le_refl _

theorem att_le_transcript_cond (ok : Nat → Bool) (c : Prop) [Decidable c]
    (text : String) {s : EmitState} :
    s.attempts.length
      ≤ (if c then streamTranscript ok text s else s).attempts.length := by
  split_ifs with hc
  · exact att_le_streamTranscript ok text
  · exact le_refl _

/-- A message event always attempts at least its first lifecycle
frame, whatever the oracle does. -/
theorem att_streamMessageResponse (ok : Nat → Bool) (cfg : MockCfg)
    (text : String) {s : EmitState} :
    s.attempts.length
      < (streamMessageResponse ok cfg text s).attempts.length := by
  simp only [streamMessageResponse]
  by_cases hb1 : (sendEvent ok ⟨"response.created", ""⟩ s).2 = true
  · simp only [hb1, Bool.not_true, Bool.false_eq_true, if_false]
    by_cases hb2 : (sendEvent ok ⟨"response.output_item.added", ""⟩ (sendEvent ok ⟨"response.created", ""⟩ s).1).2 = true
    · simp only [hb2, Bool.not_true, Bool.false_eq_true, if_false]
      by_cases hb3 : (sendEvent ok ⟨"conversation.item.created", ""⟩ (sendEvent ok ⟨"response.output_item.added", ""⟩ (sendEvent ok ⟨"response.created", ""⟩ s).1).1).2 = true
      · simp only [hb3, Bool.not_true, Bool.false_eq_true, if_false]
        by_cases hb4 : (sendEvent ok ⟨"response.content_part.added", ""⟩ (sendEvent ok ⟨"conversation.item.created", ""⟩ (sendEvent ok ⟨"response.output_item.added", ""⟩ (sendEvent ok ⟨"response.created", ""⟩ s).1).1).1).2 = true
        · simp only [hb4, Bool.not_true, Bool.false_eq_true, if_false]
          by_cases hb7 : (sendEvent ok ⟨"response.content_part.done", text⟩ (if text ≠ "" then streamTranscript ok text (if cfg.audioWavPath ≠ "" then streamAudio ok cfg.audioData (sendEvent ok ⟨"response.content_part.added", ""⟩ (sendEvent ok ⟨"conversation.item.created", ""⟩ (sendEvent ok ⟨"response.output_item.added", ""⟩ (sendEvent ok ⟨"response.created", ""⟩ s).1).1).1).1 else (sendEvent ok ⟨"response.content_part.added", ""⟩ (sendEvent ok ⟨"conversation.item.created", ""⟩ (sendEvent ok ⟨"response.output_item.added", ""⟩ (sendEvent ok ⟨"response.created", ""⟩ s).1).1).1).1) else (if cfg.audioWavPath ≠ "" then streamAudio ok cfg.audioData (sendEvent ok ⟨"response.content_part.added", ""⟩ (sendEvent ok ⟨"conversation.item.created", ""⟩ (sendEvent ok ⟨"response.output_item.added", ""⟩ (sendEvent ok ⟨"response.created", ""⟩ s).1).1).1).1 else (sendEvent ok ⟨"response.content_part.added", ""⟩ (sendEvent ok ⟨"conversation.item.created", ""⟩ (sendEvent ok ⟨"response.output_item.added", ""⟩ (sendEvent ok ⟨"response.created", ""⟩ s).1).1).1).1))).2 = true
          · simp only [hb7, Bool.not_true, Bool.false_eq_true, if_false]
            by_cases hb8 : (sendEvent ok ⟨"response.output_item.done", text⟩ (sendEvent ok ⟨"response.content_part.done", text⟩ (if text ≠ "" then streamTranscript ok text (if cfg.audioWavPath ≠ "" then streamAudio ok cfg.audioData (sendEvent ok ⟨"response.content_part.added", ""⟩ (sendEvent ok ⟨"conversation.item.created", ""⟩ (sendEvent ok ⟨"response.output_item.added", ""⟩ (sendEvent ok ⟨"response.created", ""⟩ s).1).1).1).1 else (sendEvent ok ⟨"response.content_part.added", ""⟩ (sendEvent ok ⟨"conversation.item.created", ""⟩ (sendEvent ok ⟨"response.output_item.added", ""⟩ (sendEvent ok ⟨"response.created", ""⟩ s).1).1).1).1) else (if cfg.audioWavPath ≠ "" then streamAudio ok cfg.audioData (sendEvent ok ⟨"response.content_part.added", ""⟩ (sendEvent ok ⟨"conversation.item.created", ""⟩ (sendEvent ok ⟨"response.output_item.added", ""⟩ (sendEvent ok ⟨"response.created", ""⟩ s).1).1).1).1 else (sendEvent ok ⟨"response.content_part.added", ""⟩ (sendEvent ok ⟨"conversation.item.created", ""⟩ (sendEvent ok ⟨"response.output_item.added", ""⟩ (sendEvent ok ⟨"response.created", ""⟩ s).1).1).1).1))).1).2 = true
            · simp only [hb8, Bool.not_true, Bool.false_eq_true, if_false]
              exact lt_of_lt_of_le (att_send ok _) ((att_le_send ok _).trans ((att_le_send ok _).trans ((att_le_send ok _).trans ((att_le_audio_cond ok _ _).trans ((att_le_transcript_cond ok _ _).trans ((att_le_send ok _).trans ((att_le_send ok _).trans (att_le_send ok _))))))))
            · have hbf8 : (sendEvent ok ⟨"response.output_item.done", text⟩ (sendEvent ok ⟨"response.content_part.done", text⟩ (if text ≠ "" then streamTranscript ok text (if cfg.audioWavPath ≠ "" then streamAudio ok cfg.audioData (sendEvent ok ⟨"response.content_part.added", ""⟩ (sendEvent ok ⟨"conversation.item.created", ""⟩ (sendEvent ok ⟨"response.output_item.added", ""⟩ (sendEvent ok ⟨"response.created", ""⟩ s).1).1).1).1 else (sendEvent ok ⟨"response.content_part.added", ""⟩ (sendEvent ok ⟨"conversation.item.created", ""⟩ (sendEvent ok ⟨"response.output_item.added", ""⟩ (sendEvent ok ⟨"response.created", ""⟩ s).1).1).1).1) else (if cfg.audioWavPath ≠ "" then streamAudio ok cfg.audioData (sendEvent ok ⟨"response.content_part.added", ""⟩ (sendEvent ok ⟨"conversation.item.created", ""⟩ (sendEvent ok ⟨"response.output_item.added", ""⟩ (sendEvent ok ⟨"response.created", ""⟩ s).1).1).1).1 else (sendEvent ok ⟨"response.content_part.added", ""⟩ (sendEvent ok ⟨"conversation.item.created", ""⟩ (sendEvent ok ⟨"response.output_item.added", ""⟩ (sendEvent ok ⟨"response.created", ""⟩ s).1).1).1).1))).1).2 = false := by
                simpa using hb8
              simp only [hbf8, Bool.not_false, eq_self_iff_true, if_true]
              exact lt_of_lt_of_le (att_send ok _) ((att_le_send ok _).trans ((att_le_send ok _).trans ((att_le_send ok _).trans ((att_le_audio_cond ok _ _).trans ((att_le_transcript_cond ok _ _).trans ((att_le_send ok _).trans (att_le_send ok _)))))))
          · have hbf7 : (sendEvent ok ⟨"response.content_part.done", text⟩ (if text ≠ "" then streamTranscript ok text (if cfg.audioWavPath ≠ "" then streamAudio ok cfg.audioData (sendEvent ok ⟨"response.content_part.added", ""⟩ (sendEvent ok ⟨"conversation.item.created", ""⟩ (sendEvent ok ⟨"response.output_item.added", ""⟩ (sendEvent ok ⟨"response.created", ""⟩ s).1).1).1).1 else (sendEvent ok ⟨"response.content_part.added", ""⟩ (sendEvent ok ⟨"conversation.item.created", ""⟩ (sendEvent ok ⟨"response.output_item.added", ""⟩ (sendEvent ok ⟨"response.created", ""⟩ s).1).1).1).1) else (if cfg.audioWavPath ≠ "" then streamAudio ok cfg.audioData (sendEvent ok ⟨"response.content_part.added", ""⟩ (sendEvent ok ⟨"conversation.item.created", ""⟩ (sendEvent ok ⟨"response.output_item.added", ""⟩ (sendEvent ok ⟨"response.created", ""⟩ s).1).1).1).1 else (sendEvent ok ⟨"response.content_part.added", ""⟩ (sendEvent ok ⟨"conversation.item.created", ""⟩ (sendEvent ok ⟨"response.output_item.added", ""⟩ (sendEvent ok ⟨"response.created", ""⟩ s).1).1).1).1))).2 = false := by
              simpa using hb7
            simp only [hbf7, Bool.not_false, eq_self_iff_true, if_true]
            exact lt_of_lt_of_le (att_send ok _) ((att_le_send ok _).trans ((att_le_send ok _).trans ((att_le_send ok _).trans ((att_le_audio_cond ok _ _).trans ((att_le_transcript_cond ok _ _).trans (att_le_send ok _))))))
        · have hbf4 : (sendEvent ok ⟨"response.content_part.added", ""⟩ (sendEvent ok ⟨"conversation.item.created", ""⟩ (sendEvent ok ⟨"response.output_item.added", ""⟩ (sendEvent ok ⟨"response.created", ""⟩ s).1).1).1).2 = false := by
            simpa using hb4
          simp only [hbf4, Bool.not_false, eq_self_iff_true, if_true]
          exact lt_of_lt_of_le (att_send ok _) ((att_le_send ok _).trans ((att_le_send ok _).trans (att_le_send ok _)))
      · have hbf3 : (sendEvent ok ⟨"conversation.item.created", ""⟩ (sendEvent ok ⟨"response.output_item.added", ""⟩ (sendEvent ok ⟨"response.created", ""⟩ s).1).1).2 = false := by
          simpa using hb3
        simp only [hbf3, Bool.not_false, eq_self_iff_true, if_true]
        exact lt_of_lt_of_le (att_send ok _) ((att_le_send ok _).trans (att_le_send ok _))
    · have hbf2 : (sendEvent ok ⟨"response.output_item.added", ""⟩ (sendEvent ok ⟨"response.created", ""⟩ s).1).2 = false := by
        simpa using hb2
      simp only [hbf2, Bool.not_false, eq_self_iff_true, if_true]
      exact lt_of_lt_of_le (att_send ok _) (att_le_send ok _)
  · have hbf1 : (sendEvent ok ⟨"response.created", ""⟩ s).2 = false := by
      simpa using hb1
    simp only [hbf1, Bool.not_false, eq_self_iff_true, if_true]
    exact att_send ok _

/-- A function-call event with a present definition always attempts
at least its first lifecycle frame. -/
theorem att_sendFunctionCall (ok : Nat → Bool)
    (fc : FunctionCallDefinition) {s : EmitState} :
    s.attempts.length
      < (sendFunctionCall ok (some fc) s).attempts.length := by
  simp only [sendFunctionCall]
  by_cases hb1 : (sendEvent ok ⟨"response.created", ""⟩ s).2 = true
  · simp only [hb1, Bool.not_true, Bool.false_eq_true, if_false]
    by_cases hb2 : (sendEvent ok ⟨"conversation.item.created", ""⟩ (sendEvent ok ⟨"response.created", ""⟩ s).1).2 = true
    · simp only [hb2, Bool.not_true, Bool.false_eq_true, if_false]
      by_cases hb3 : (sendEvent ok ⟨"response.output_item.added", ""⟩ (sendEvent ok ⟨"conversation.item.created", ""⟩ (sendEvent ok ⟨"response.created", ""⟩ s).1).1).2 = true
      · simp only [hb3, Bool.not_true, Bool.false_eq_true, if_false]
        by_cases hbL : (sendLoop ok (fun c => (⟨"response.function_call_arguments.delta", c⟩ : Frame)) (chunkArguments fc.arguments) (sendEvent ok ⟨"response.output_item.added", ""⟩ (sendEvent ok ⟨"conversation.item.created", ""⟩ (sendEvent ok ⟨"response.created", ""⟩ s).1).1).1).2 = true
        · simp only [hbL, Bool.not_true, Bool.false_eq_true, if_false]
          by_cases hb5 : (sendEvent ok ⟨"response.function_call_arguments.done", fc.arguments⟩ (sendLoop ok (fun c => (⟨"response.function_call_arguments.delta", c⟩ : Frame)) (chunkArguments fc.arguments) (sendEvent ok ⟨"response.output_item.added", ""⟩ (sendEvent ok ⟨"conversation.item.created", ""⟩ (sendEvent ok ⟨"response.created", ""⟩ s).1).1).1).1).2 = true
          · simp only [hb5, Bool.not_true, Bool.false_eq_true, if_false]
            exact lt_of_lt_of_le (att_send ok _) ((att_le_send ok _).trans ((att_le_send ok _).trans ((att_le_sendLoop ok _ _).trans ((att_le_send ok _).trans (att_le_send ok _)))))
          · have hbf5 : (sendEvent ok ⟨"response.function_call_arguments.done", fc.arguments⟩ (sendLoop ok (fun c => (⟨"response.function_call_arguments.delta", c⟩ : Frame)) (chunkArguments fc.arguments) (sendEvent ok ⟨"response.output_item.added", ""⟩ (sendEvent ok ⟨"conversation.item.created", ""⟩ (sendEvent ok ⟨"response.created", ""⟩ s).1).1).1).1).2 = false := by
              simpa using hb5
            simp only [hbf5, Bool.not_false, eq_self_iff_true, if_true]
            exact lt_of_lt_of_le (att_send ok _) ((att_le_send ok _).trans ((att_le_send ok _).trans ((att_le_sendLoop ok _ _).trans (att_le_send ok _))))
        · have hbfL : (sendLoop ok (fun c => (⟨"response.function_call_arguments.delta", c⟩ : Frame)) (chunkArguments fc.arguments) (sendEvent ok ⟨"response.output_item.added", ""⟩ (sendEvent ok ⟨"conversation.item.created", ""⟩ (sendEvent ok ⟨"response.created", ""⟩ s).1).1).1).2 = false := by simpa using hbL
          simp only [hbfL, Bool.not_false, eq_self_iff_true, if_true]
          exact lt_of_lt_of_le (att_send ok _) ((att_le_send ok _).trans ((att_le_send ok _).trans (att_le_sendLoop ok _ _)))
      · have hbf3 : (sendEvent ok ⟨"response.output_item.added", ""⟩ (sendEvent ok ⟨"conversation.item.created", ""⟩ (sendEvent ok ⟨"response.created", ""⟩ s).1).1).2 = false := by
          simpa using hb3
        simp only [hbf3, Bool.not_false, eq_self_iff_true, if_true]
        exact lt_of_lt_of_le (att_send ok _) ((att_le_send ok _).trans (att_le_send ok _))
    · have hbf2 : (sendEvent ok ⟨"conversation.item.created", ""⟩ (sendEvent ok ⟨"response.created", ""⟩ s).1).2 = false := by
        simpa using hb2
      simp only [hbf2, Bool.not_false, eq_self_iff_true, if_true]
      exact lt_of_lt_of_le (att_send ok _) (att_le_send ok _)
  · have hbf1 : (sendEvent ok ⟨"response.created", ""⟩ s).2 = false := by
      simpa using hb1
    simp only [hbf1, Bool.not_false, eq_self_iff_true, if_true]
    exact att_send ok _

/-- A user-transcription event always attempts at least its first
frame. -/
theorem att_sendUserTranscription (ok : Nat → Bool) (text : String)
    {s : EmitState} :
    s.attempts.length
      < (sendUserTranscription ok text s).attempts.length := by
  simp only [sendUserTranscription]
  by_cases hb1 : (sendEvent ok ⟨"input_audio_buffer.committed", ""⟩ s).2
      = true
  · simp only [hb1, Bool.not_true, Bool.false_eq_true, if_false]
    by_cases hb2 : (sendEvent ok ⟨"conversation.item.created", ""⟩
        (sendEvent ok ⟨"input_audio_buffer.committed", ""⟩ s).1).2 = true
    · simp only [hb2, Bool.not_true, Bool.false_eq_true, if_false]
      exact lt_of_lt_of_le (att_send ok _)
        ((att_le_send ok _).trans (att_le_send ok _))
    · have hbf2 : (sendEvent ok ⟨"conversation.item.created", ""⟩
          (sendEvent ok ⟨"input_audio_buffer.committed", ""⟩ s).1).2
          = false := by simpa using hb2
      simp only [hbf2, Bool.not_false, eq_self_iff_true, if_true]
      exact lt_of_lt_of_le (att_send ok _) (att_le_send ok _)
  · have hbf1 : (sendEvent ok ⟨"input_audio_buffer.committed", ""⟩ s).2
        = false := by simpa using hb1
    simp only [hbf1, Bool.not_false, eq_self_iff_true, if_true]
    exact att_send ok _

/-- Every event of one of the three configured types attempts at least
one write, whatever the oracle. -/
theorem att_runEvent (ok : Nat → Bool) (cfg : MockCfg) (e : Event)
    (he : e.type = "message" ∨ e.type = "user_transcription"
      ∨ (e.type = "function_call" ∧ e.functionCall ≠ none))
    {s : EmitState} :
    s.attempts.length < (runEvent ok cfg e s).attempts.length := by
  rcases he with h | h | ⟨h, hfc⟩
  · have h1 : (e.type == "message") = true := by simp [h]
    simp only [runEvent, h1, if_true]
    exact att_streamMessageResponse ok cfg e.text
  · have h1 : (e.type == "message") = false := by simp [h]
    have h2 : (e.type == "function_call") = false := by simp [h]
    have h3 : (e.type == "user_transcription") = true := by simp [h]
    simp only [runEvent, h1, h2, h3, Bool.false_eq_true, if_false, if_true]
    exact att_sendUserTranscription ok e.text
  · have h1 : (e.type == "message") = false := by simp [h]
    have h2 : (e.type == "function_call") = true := by simp [h]
    simp only [runEvent, h1, h2, Bool.false_eq_true, if_false, if_true]
    cases hcc : e.functionCall with
    | none => exact absurd hcc hfc
    | some fc => exact att_sendFunctionCall ok fc

/-- The scenario loop attempts at least one write per configured
event. -/
theorem runScenario_attempts (ok : Nat → Bool) (cfg : MockCfg) :
    ∀ events : List Event,
      (∀ e ∈ events, e.type = "message" ∨ e.type = "user_transcription"
        ∨ (e.type = "function_call" ∧ e.functionCall ≠ none)) →
      ∀ s : EmitState, s.attempts.length + events.length
        ≤ (events.foldl
            (fun st e => runEvent ok cfg e st) s).attempts.length := by
  intro events
  induction events with
  | nil => intro _ s; simp
  | cons e rest ih =>
    intro hvalid s
    have he := hvalid e (List.mem_cons_self e rest)
    have hrest := fun x hx => hvalid x (List.mem_cons_of_mem e hx)
    simp only [List.foldl_cons, List.length_cons]
    have h1 : s.attempts.length < (runEvent ok cfg e s).attempts.length :=
      att_runEvent ok cfg e he
    have h2 := ih hrest (runEvent ok cfg e s)
    omega

/-- C5 amended: if a send fails while executing one scripted event, the
connection being dead from that write on (every later write fails, as
with a closed websocket), nothing further is successfully emitted —
neither the remainder of that event's sub-sequence nor any frame of a
later event: the frames sent are exactly the first k of the
failure-free emission when the k-th write is the first to fail.  The
scenario as a whole, however, is NOT aborted: the loop still executes
every remaining event, each attempting at least one further write;
nothing is retried. -/
theorem scenario_send_failure_behavior (cfg : MockCfg) (sc : Scenario)
    (k : Nat)
    (hvalid : ∀ e ∈ sc.events, e.type = "message"
      ∨ e.type = "user_transcription"
      ∨ (e.type = "function_call" ∧ e.functionCall ≠ none)) :
    (runScenario (failK k) cfg sc EmitState.empty).sent
        = ((runScenario (fun _ => true) cfg sc EmitState.empty).sent).take k
      ∧ ∀ ok : Nat → Bool, sc.events.length
          ≤ (runScenario ok cfg sc EmitState.empty).attempts.length := by
  refine ⟨runScenario_sent_take cfg sc k, fun ok => ?_⟩
  have h := runScenario_attempts ok cfg sc.events hvalid EmitState.empty
  simpa [EmitState.empty, runScenario] using h

/-- Witness for C5's amended statement on the README-style three-event
scenario (user_transcription, message, function_call) with the
connection dying at the third write. -/
theorem scenario_send_failure_behavior_witness :
    ((runScenario (failK 3) ⟨"", none⟩
        ⟨"booking", [⟨"user_transcription", 500, "I want to book.", none⟩,
          ⟨"message", 1000, "Sure, where to?", none⟩,
          ⟨"function_call", 2000, "",
            some ⟨"search_flights", "\x7b\"to\":\"LAX\"\x7d"⟩⟩]⟩
        EmitState.empty).sent
      = ((runScenario (fun _ => true) ⟨"", none⟩
          ⟨"booking", [⟨"user_transcription", 500, "I want to book.", none⟩,
            ⟨"message", 1000, "Sure, where to?", none⟩,
            ⟨"function_call", 2000, "",
              some ⟨"search_flights", "\x7b\"to\":\"LAX\"\x7d"⟩⟩]⟩
          EmitState.empty).sent).take 3)
      ∧ 3 ≤ (runScenario (fun _ => false) ⟨"", none⟩
          ⟨"booking", [⟨"user_transcription", 500, "I want to book.", none⟩,
            ⟨"message", 1000, "Sure, where to?", none⟩,
            ⟨"function_call", 2000, "",
              some ⟨"search_flights", "\x7b\"to\":\"LAX\"\x7d"⟩⟩]⟩
          EmitState.empty).attempts.length :=
  ⟨(scenario_send_failure_behavior ⟨"", none⟩
      ⟨"booking", [⟨"user_transcription", 500, "I want to book.", none⟩,
        ⟨"message", 1000, "Sure, where to?", none⟩,
        ⟨"function_call", 2000, "",
          some ⟨"search_flights", "\x7b\"to\":\"LAX\"\x7d"⟩⟩]⟩
      3 (by decide)).1,
   (scenario_send_failure_behavior ⟨"", none⟩
      ⟨"booking", [⟨"user_transcription", 500, "I want to book.", none⟩,
        ⟨"message", 1000, "Sure, where to?", none⟩,
        ⟨"function_call", 2000, "",
          some ⟨"search_flights", "\x7b\"to\":\"LAX\"\x7d"⟩⟩]⟩
      3 (by decide)).2 (fun _ => false)⟩

/-- C8: a message event with empty scripted text and no configured
audio source emits no audio-delta and no transcript-delta, but still
emits the full response lifecycle: response.created, output_item.added,
conversation.item.created, content_part.added, content_part.done,
output_item.done, response.done — and the skipped sub-streams cause no
abort: the closing events are all sent. -/
theorem message_empty_text_lifecycle (cfg : MockCfg)
    (h : cfg.audioWavPath = "") (d : Int)
    (fc : Option FunctionCallDefinition) :
    ((runEvent (fun _ => true) cfg ⟨"message", d, "", fc⟩
        EmitState.empty).sent.map Frame.etype
      = ["response.created", "response.output_item.added",
         "conversation.item.created", "response.content_part.added",
         "response.content_part.done", "response.output_item.done",
         "response.done"])
      ∧ ∀ f ∈ (runEvent (fun _ => true) cfg ⟨"message", d, "", fc⟩
          EmitState.empty).sent,
        f.etype ≠ "response.audio.delta"
          ∧ f.etype ≠ "response.audio_transcript.delta" := by
  obtain ⟨path, ad⟩ := cfg
  simp only at h
  subst h
  constructor
  · rfl
  · intro f hf
    have hsent : (runEvent (fun _ => true) (⟨"", ad⟩ : MockCfg)
        ⟨"message", d, "", fc⟩ EmitState.empty).sent
        = [⟨"response.created", ""⟩, ⟨"response.output_item.added", ""⟩,
           ⟨"conversation.item.created", ""⟩,
           ⟨"response.content_part.added", ""⟩,
           ⟨"response.content_part.done", ""⟩,
           ⟨"response.output_item.done", ""⟩, ⟨"response.done", ""⟩] := rfl
    rw [hsent] at hf
    fin_cases hf <;> exact ⟨by decide, by decide⟩

/-- Witness for C8 at the empty configuration. -/
theorem message_empty_text_lifecycle_witness :
    ((runEvent (fun _ => true) (⟨"", none⟩ : MockCfg) ⟨"message", 0, "", none⟩
        EmitState.empty).sent.map Frame.etype
      = ["response.created", "response.output_item.added",
         "conversation.item.created", "response.content_part.added",
         "response.content_part.done", "response.output_item.done",
         "response.done"])
      ∧ ∀ f ∈ (runEvent (fun _ => true) (⟨"", none⟩ : MockCfg)
          ⟨"message", 0, "", none⟩ EmitState.empty).sent,
        f.etype ≠ "response.audio.delta"
          ∧ f.etype ≠ "response.audio_transcript.delta" :=
  message_empty_text_lifecycle ⟨"", none⟩ rfl 0 none

/-- `strings.Fields` expressed through the structurally-recursive list
splitter, for concrete evaluation. -/
theorem stringFields_eq (text : String) :
    stringFields text
      = ((List.splitOnP Char.isWhitespace text.data).map String.mk).filter
          (fun w => w ≠ "") := by
  rw [stringFields, String.split_of_valid]

/-- C3 counterexample: the concatenation of the transcript-delta
payloads does not equal the original scripted text: already for the
one-word text "hi" the single delta is "hi " and the concatenation
carries a trailing space the text does not have. -/
theorem transcript_concat_counterexample :
    sentPayloadConcat "response.audio_transcript.delta"
        (streamTranscript (fun _ => true) "hi" EmitState.empty) = "hi "
      ∧ ("hi " : String) ≠ "hi" := by
  have hw : stringFields "hi" = ["hi"] := by
    rw [stringFields_eq]; decide
  constructor
  · rw [sentPayloadConcat]
    simp only [streamTranscript, hw]
    decide
  · decide

theorem flatten_shift_space (c : Char) :
    ∀ ws : List (List Char),
      c :: (ws.map (fun v => v ++ [c])).flatten
        = (ws.map (fun v => c :: v)).flatten ++ [c] := by
  intro ws
  induction ws with
  | nil => simp
  | cons v ws ih =>
    simp only [List.map_cons, List.flatten_cons]
    simp [List.append_assoc, ih]

theorem intercalate_go_data (as : List String) :
    ∀ acc : String,
      (String.intercalate.go acc " " as).data
        = acc.data ++ (as.map (fun w => ' ' :: w.data)).flatten := by
  induction as with
  | nil => intro acc; simp [String.intercalate.go]
  | cons a as ih =>
    intro acc
    have hsp : (" " : String).data = [' '] := rfl
    simp [String.intercalate.go, ih, hsp, List.append_assoc]

/-- Joining words each followed by one space equals the single-space
interleaving of the words followed by one trailing space. -/
theorem join_words_trailing_space (ws : List String) (hne : ws ≠ []) :
    String.join (ws.map (fun w => w ++ " "))
      = String.intercalate " " ws ++ " " := by
  cases ws with
  | nil => exact absurd rfl hne
  | cons w ws2 =>
    apply string_ext
    have hsp : (" " : String).data = [' '] := rfl
    rw [show String.intercalate " " (w :: ws2)
          = String.intercalate.go w " " ws2 from rfl]
    simp only [String.data_append, String.data_join, List.map_cons,
      List.map_map, Function.comp_def, hsp, intercalate_go_data,
      List.flatten_cons]
    rw [List.append_assoc, List.append_assoc]
    congr 1
    have := flatten_shift_space ' ' (ws2.map String.data)
    simp only [List.map_map, Function.comp_def] at this
    simpa [List.append_assoc] using this

/-- C3 amended: for every message event, the concatenation of all
transcript-delta payloads, in emission order, equals the
whitespace-separated words of the scripted text joined by single spaces
and followed by one trailing space when the text contains at least one
word, and the empty string when it contains none (empty or
all-whitespace text emits no deltas at all) — the original text only up
to whitespace normalization and the trailing space, not byte-for-byte. -/
theorem transcript_concat_normalized (text : String) :
    sentPayloadConcat "response.audio_transcript.delta"
        (streamTranscript (fun _ => true) text EmitState.empty)
      = if stringFields text = [] then ""
        else String.intercalate " " (stringFields text) ++ " " := by
  by_cases hf : stringFields text = []
  · rw [if_pos hf]
    have hempty : (stringFields text).isEmpty = true := by simp [hf]
    simp [sentPayloadConcat, streamTranscript, hempty, EmitState.empty,
      String.join]
  · rw [if_neg hf]
    have hempty : (stringFields text).isEmpty = false := by
      cases hx : stringFields text with
      | nil => exact absurd hx hf
      | cons a l => rfl
    have hsent : (streamTranscript (fun _ => true) text EmitState.empty).sent
        = (stringFields text).map
            (fun w => ⟨"response.audio_transcript.delta", w ++ " "⟩)
          ++ [⟨"response.output_audio_transcript.done", text⟩] := by
      simp [streamTranscript, hempty, sendLoop_allOk, sendEvent,
        EmitState.empty]
    rw [sentPayloadConcat, hsent]
    rw [List.filter_append, List.filter_map]
    simp only [Function.comp_def, beq_self_eq_true, List.filter_true,
      List.map_map, List.map_append]
    have hdone : (([⟨"response.output_audio_transcript.done", text⟩] :
        List Frame).filter
        (fun f => f.etype == "response.audio_transcript.delta")) = [] := rfl
    rw [hdone]
    simp only [List.map_nil, List.append_nil]
    exact join_words_trailing_space (stringFields text) hf

end RealtimeMock

